import Mathlib

/-!
Shallow embedding of the location-based alerting subsystem of the
Elder Strolls backend (`backend/api/services/location_service.py`,
`backend/api/services/location_alert_service.py`,
`backend/api/services/airport_data.py`, and the `update_location` view in
`backend/api/views.py`), together with proofs about it.

Conventions used throughout:
* Python floats are idealised as real numbers (`ℝ`); timestamps are carried
  as minutes in `ℚ`; Python ints are `ℤ`.
* Django rows become Lean structures; a related-manager query ordered
  newest-first becomes a `List` whose head is the newest element.
* Service methods that look a session up by id take the lookup result
  (`Option Session`) directly, and return the resulting database state
  alongside their Python return value.
* External collaborators (the outbound-call service and the helper e-mail
  sender) are passed in as arguments describing what the collaborator
  returns when it is invoked; row ids generated by the database are not
  modelled.
-/

namespace ElderStrolls

open Classical

/-- Python `round` applied to a float: round half to even (banker's
rounding), as used by `round(minutes)` and `round(distance)` in
`location_service.py`. -/
noncomputable def pyRound (x : ℝ) : ℤ :=
  if x - ⌊x⌋ < 1/2 then ⌊x⌋
  else if 1/2 < x - ⌊x⌋ then ⌊x⌋ + 1
  else if 2 ∣ ⌊x⌋ then ⌊x⌋ else ⌊x⌋ + 1

/-- Python `int()` truncation toward zero, applied to a rational number of
minutes (`int((departure_time - now).total_seconds() / 60)`). -/
def truncQ (q : ℚ) : ℤ := if 0 ≤ q then ⌊q⌋ else -⌊-q⌋

/-- Truthiness of an optional Python string: `None` and `''` are falsy. -/
def strTruthy : Option String → Bool
  | none => false
  | some s => !(s == "")

/-- Python `opt or default` applied to an optional string. -/
def orDefault (s : Option String) (d : String) : String :=
  match s with
  | some x => if x == "" then d else x
  | none => d

/-- Rendering of an optional int inside a Python f-string (`None` prints
as `"None"`). -/
def strOfOptInt : Option ℤ → String
  | some n => toString n
  | none => "None"

/-- `math.radians`: degrees to radians. -/
noncomputable def radiansOfDeg (x : ℝ) : ℝ := x * (Real.pi / 180)

/-- `math.atan2` on the real model (case split as in the C convention). -/
noncomputable def atan2 (y x : ℝ) : ℝ :=
  if 0 < x then Real.arctan (y / x)
  else if x < 0 then
    (if 0 ≤ y then Real.arctan (y / x) + Real.pi else Real.arctan (y / x) - Real.pi)
  else if 0 < y then Real.pi / 2
  else if y < 0 then -(Real.pi / 2)
  else 0

/-- `LocationService._calculate_distance`: Haversine formula on a spherical
Earth of radius 6 371 000 m, with the inputs in degrees. -/
noncomputable def calculate_distance (lat1 lon1 lat2 lon2 : ℝ) : ℝ :=
  let R : ℝ := 6371000
  let rlat1 := radiansOfDeg lat1
  let rlon1 := radiansOfDeg lon1
  let rlat2 := radiansOfDeg lat2
  let rlon2 := radiansOfDeg lon2
  let dlat := rlat2 - rlat1
  let dlon := rlon2 - rlon1
  let a := Real.sin (dlat / 2) ^ 2 +
    Real.cos rlat1 * Real.cos rlat2 * Real.sin (dlon / 2) ^ 2
  let c := 2 * atan2 (Real.sqrt a) (Real.sqrt (1 - a))
  R * c

/-- One gate entry of `airport_data.AIRPORT_GATES`. -/
structure GateInfo where
  lat : ℝ
  lng : ℝ
  terminal : String

/-- One terminal entry of `airport_data.AIRPORT_TERMINALS`. -/
structure TerminalInfo where
  lat : ℝ
  lng : ℝ
  name : String

/-- The `'DFW'` entry of `AIRPORT_GATES`. -/
def DFW_GATES : List (String × GateInfo) := [
  ("A1", ⟨32.9002, (-97.037), "A"⟩),
  ("A2", ⟨32.9004, (-97.0368), "A"⟩),
  ("A3", ⟨32.9006, (-97.0366), "A"⟩),
  ("A10", ⟨32.901, (-97.036), "A"⟩),
  ("A15", ⟨32.9012, (-97.0355), "A"⟩),
  ("A20", ⟨32.9015, (-97.035), "A"⟩),
  ("A25", ⟨32.9018, (-97.0345), "A"⟩),
  ("A30", ⟨32.902, (-97.034), "A"⟩),
  ("A35", ⟨32.9022, (-97.0335), "A"⟩),
  ("A38", ⟨32.9024, (-97.0332), "A"⟩),
  ("B1", ⟨32.8975, (-97.0382), "B"⟩),
  ("B5", ⟨32.8978, (-97.038), "B"⟩),
  ("B10", ⟨32.898, (-97.0375), "B"⟩),
  ("B15", ⟨32.8982, (-97.037), "B"⟩),
  ("B20", ⟨32.8985, (-97.0365), "B"⟩),
  ("B22", ⟨32.8986, (-97.0363), "B"⟩),
  ("B25", ⟨32.8988, (-97.036), "B"⟩),
  ("B30", ⟨32.899, (-97.0355), "B"⟩),
  ("B35", ⟨32.8992, (-97.035), "B"⟩),
  ("B40", ⟨32.8995, (-97.0345), "B"⟩),
  ("B45", ⟨32.8998, (-97.034), "B"⟩),
  ("C1", ⟨32.895, (-97.04), "C"⟩),
  ("C5", ⟨32.8952, (-97.0395), "C"⟩),
  ("C10", ⟨32.8955, (-97.039), "C"⟩),
  ("C15", ⟨32.8958, (-97.0385), "C"⟩),
  ("C20", ⟨32.896, (-97.038), "C"⟩),
  ("C25", ⟨32.8962, (-97.0375), "C"⟩),
  ("C30", ⟨32.8965, (-97.037), "C"⟩),
  ("D1", ⟨32.8925, (-97.042), "D"⟩),
  ("D5", ⟨32.8928, (-97.0415), "D"⟩),
  ("D10", ⟨32.893, (-97.041), "D"⟩),
  ("D15", ⟨32.8932, (-97.0405), "D"⟩),
  ("D20", ⟨32.8935, (-97.04), "D"⟩),
  ("D25", ⟨32.8938, (-97.0395), "D"⟩),
  ("D30", ⟨32.894, (-97.039), "D"⟩),
  ("E1", ⟨32.89, (-97.044), "E"⟩),
  ("E5", ⟨32.8902, (-97.0435), "E"⟩),
  ("E10", ⟨32.8905, (-97.043), "E"⟩),
  ("E15", ⟨32.8908, (-97.0425), "E"⟩),
  ("E20", ⟨32.891, (-97.042), "E"⟩),
  ("E25", ⟨32.8912, (-97.0415), "E"⟩),
  ("E30", ⟨32.8915, (-97.041), "E"⟩)]

/-- The `'ORD'` entry of `AIRPORT_GATES`. -/
def ORD_GATES : List (String × GateInfo) := [
  ("B1", ⟨41.9792, (-87.904), "1"⟩),
  ("B5", ⟨41.9795, (-87.9035), "1"⟩),
  ("B10", ⟨41.9798, (-87.903), "1"⟩),
  ("B15", ⟨41.98, (-87.9025), "1"⟩),
  ("B20", ⟨41.9802, (-87.902), "1"⟩),
  ("C1", ⟨41.9805, (-87.9015), "1"⟩),
  ("C5", ⟨41.9808, (-87.901), "1"⟩),
  ("C10", ⟨41.981, (-87.9005), "1"⟩),
  ("E1", ⟨41.977, (-87.906), "2"⟩),
  ("E5", ⟨41.9772, (-87.9055), "2"⟩),
  ("E10", ⟨41.9775, (-87.905), "2"⟩),
  ("F1", ⟨41.9778, (-87.9045), "2"⟩),
  ("F5", ⟨41.978, (-87.904), "2"⟩),
  ("F10", ⟨41.9782, (-87.9035), "2"⟩),
  ("G1", ⟨41.975, (-87.908), "3"⟩),
  ("G5", ⟨41.9752, (-87.9075), "3"⟩),
  ("G10", ⟨41.9755, (-87.907), "3"⟩),
  ("H1", ⟨41.9758, (-87.9065), "3"⟩),
  ("H5", ⟨41.976, (-87.906), "3"⟩),
  ("H10", ⟨41.9762, (-87.9055), "3"⟩),
  ("K1", ⟨41.9765, (-87.905), "3"⟩),
  ("K5", ⟨41.9768, (-87.9045), "3"⟩)]

/-- The `'LAX'` entry of `AIRPORT_GATES`. -/
def LAX_GATES : List (String × GateInfo) := [
  ("40", ⟨33.9428, (-118.406), "4"⟩),
  ("41", ⟨33.943, (-118.4058), "4"⟩),
  ("42", ⟨33.9432, (-118.4056), "4"⟩),
  ("43", ⟨33.9434, (-118.4054), "4"⟩),
  ("44", ⟨33.9436, (-118.4052), "4"⟩),
  ("45", ⟨33.9438, (-118.405), "4"⟩),
  ("46", ⟨33.944, (-118.4048), "4"⟩),
  ("47", ⟨33.9442, (-118.4046), "4"⟩),
  ("48", ⟨33.9444, (-118.4044), "4"⟩),
  ("50", ⟨33.941, (-118.408), "5"⟩),
  ("51", ⟨33.9412, (-118.4078), "5"⟩),
  ("52", ⟨33.9414, (-118.4076), "5"⟩),
  ("53", ⟨33.9416, (-118.4074), "5"⟩),
  ("54", ⟨33.9418, (-118.4072), "5"⟩),
  ("55", ⟨33.942, (-118.407), "5"⟩)]

/-- The `'JFK'` entry of `AIRPORT_GATES`. -/
def JFK_GATES : List (String × GateInfo) := [
  ("1", ⟨40.644, (-73.786), "8"⟩),
  ("2", ⟨40.6442, (-73.7858), "8"⟩),
  ("3", ⟨40.6444, (-73.7856), "8"⟩),
  ("4", ⟨40.6446, (-73.7854), "8"⟩),
  ("5", ⟨40.6448, (-73.7852), "8"⟩),
  ("6", ⟨40.645, (-73.785), "8"⟩),
  ("7", ⟨40.6452, (-73.7848), "8"⟩),
  ("8", ⟨40.6454, (-73.7846), "8"⟩),
  ("9", ⟨40.6456, (-73.7844), "8"⟩),
  ("10", ⟨40.6458, (-73.7842), "8"⟩)]

/-- The `'MIA'` entry of `AIRPORT_GATES`. -/
def MIA_GATES : List (String × GateInfo) := [
  ("D1", ⟨25.796, (-80.276), "D"⟩),
  ("D5", ⟨25.7962, (-80.2755), "D"⟩),
  ("D10", ⟨25.7965, (-80.275), "D"⟩),
  ("D15", ⟨25.7968, (-80.2745), "D"⟩),
  ("D20", ⟨25.797, (-80.274), "D"⟩),
  ("D25", ⟨25.7972, (-80.2735), "D"⟩),
  ("D30", ⟨25.7975, (-80.273), "D"⟩),
  ("D35", ⟨25.7978, (-80.2725), "D"⟩),
  ("D40", ⟨25.798, (-80.272), "D"⟩)]

/-- The `'PHX'` entry of `AIRPORT_GATES`. -/
def PHX_GATES : List (String × GateInfo) := [
  ("A1", ⟨33.436, (-112.008), "4"⟩),
  ("A5", ⟨33.4362, (-112.0075), "4"⟩),
  ("A10", ⟨33.4365, (-112.007), "4"⟩),
  ("A15", ⟨33.4368, (-112.0065), "4"⟩),
  ("A20", ⟨33.437, (-112.006), "4"⟩),
  ("B1", ⟨33.434, (-112.01), "4"⟩),
  ("B5", ⟨33.4342, (-112.0095), "4"⟩),
  ("B10", ⟨33.4345, (-112.009), "4"⟩),
  ("B15", ⟨33.4348, (-112.0085), "4"⟩),
  ("B20", ⟨33.435, (-112.008), "4"⟩)]

/-- The `'PIT'` entry of `AIRPORT_GATES`. -/
def PIT_GATES : List (String × GateInfo) := [
  ("A1", ⟨40.4955, (-80.2425), "Airside"⟩),
  ("A5", ⟨40.4957, (-80.242), "Airside"⟩),
  ("A10", ⟨40.496, (-80.2415), "Airside"⟩),
  ("A15", ⟨40.4962, (-80.241), "Airside"⟩),
  ("A20", ⟨40.4965, (-80.2405), "Airside"⟩),
  ("B1", ⟨40.495, (-80.242), "Airside"⟩),
  ("B5", ⟨40.4952, (-80.2415), "Airside"⟩),
  ("B10", ⟨40.4955, (-80.241), "Airside"⟩),
  ("B15", ⟨40.4957, (-80.2405), "Airside"⟩),
  ("B20", ⟨40.496, (-80.24), "Airside"⟩),
  ("B22", ⟨40.4958, (-80.2413), "Airside"⟩),
  ("B25", ⟨40.4962, (-80.2395), "Airside"⟩),
  ("C1", ⟨40.4945, (-80.243), "Airside"⟩),
  ("C5", ⟨40.4947, (-80.2425), "Airside"⟩),
  ("C10", ⟨40.495, (-80.242), "Airside"⟩)]

/-- `airport_data.AIRPORT_GATES` as an association list keyed by airport. -/
def AIRPORT_GATES : List (String × List (String × GateInfo)) :=
  [("DFW", DFW_GATES), ("ORD", ORD_GATES), ("LAX", LAX_GATES), ("JFK", JFK_GATES),
   ("MIA", MIA_GATES), ("PHX", PHX_GATES), ("PIT", PIT_GATES)]

/-- The `'DFW'` entry of `AIRPORT_TERMINALS`. -/
def DFW_TERMINALS : List (String × TerminalInfo) := [
  ("A", ⟨32.901, (-97.0355), "Terminal A"⟩),
  ("B", ⟨32.8985, (-97.0365), "Terminal B"⟩),
  ("C", ⟨32.8958, (-97.0385), "Terminal C"⟩),
  ("D", ⟨32.8935, (-97.04), "Terminal D"⟩),
  ("E", ⟨32.8908, (-97.0425), "Terminal E"⟩)]

/-- The `'ORD'` entry of `AIRPORT_TERMINALS`. -/
def ORD_TERMINALS : List (String × TerminalInfo) := [
  ("1", ⟨41.98, (-87.9025), "Terminal 1"⟩),
  ("2", ⟨41.9775, (-87.905), "Terminal 2"⟩),
  ("3", ⟨41.9755, (-87.907), "Terminal 3"⟩),
  ("5", ⟨41.973, (-87.909), "Terminal 5 (International)"⟩)]

/-- The `'PIT'` entry of `AIRPORT_TERMINALS`. -/
def PIT_TERMINALS : List (String × TerminalInfo) := [
  ("Airside", ⟨40.4955, (-80.2415), "Airside Terminal"⟩),
  ("Landside", ⟨40.492, (-80.237), "Landside Terminal"⟩)]

/-- `airport_data.AIRPORT_TERMINALS` as an association list. -/
def AIRPORT_TERMINALS : List (String × List (String × TerminalInfo)) :=
  [("DFW", DFW_TERMINALS), ("ORD", ORD_TERMINALS), ("PIT", PIT_TERMINALS)]

/-- `airport_data.WALKING_SPEEDS` (meters per minute). -/
def WALKING_SPEEDS : List (String × ℝ) :=
  [("normal", 80), ("elderly", 50), ("rushed", 100)]

/-- The dict returned by `airport_data.get_gate_location` (the
`approximate` key defaults to `False` when absent). -/
structure GateLocation where
  lat : ℝ
  lng : ℝ
  terminal : String
  approximate : Bool

/-- Python `str.upper()` on the ASCII identifiers used here (defined via a
structural list map so that lookups on concrete strings reduce). -/
def upperStr (s : String) : String :=
  String.mk (s.toList.map Char.toUpper)

/-- Python `str.lstrip('0')`. -/
def lstripZeros (s : String) : String :=
  String.mk (s.toList.dropWhile (fun c => c == '0'))

/-- `airport_data.get_gate_location`: exact gate first, then with leading
zeros stripped, then the terminal-centre fallback keyed by the gate's
first character (with `approximate := true`), else not found. -/
def get_gate_location (airport_code gate : String) : Option GateLocation :=
  let airport_gates := (AIRPORT_GATES.lookup (upperStr airport_code)).getD []
  match airport_gates.lookup (upperStr gate) with
  | some g => some ⟨g.lat, g.lng, g.terminal, false⟩
  | none =>
    match airport_gates.lookup (lstripZeros (upperStr gate)) with
    | some g => some ⟨g.lat, g.lng, g.terminal, false⟩
    | none =>
      if gate == "" then none
      else
        match gate.toList.head? with
        | none => none
        | some c =>
          let terminal := (Char.toUpper c).toString
          match ((AIRPORT_TERMINALS.lookup (upperStr airport_code)).getD []).lookup terminal with
          | some t => some ⟨t.lat, t.lng, terminal, true⟩
          | none => none

/-- `airport_data.get_simple_directions`: coarse cardinal direction from
the latitude/longitude deltas, localized English/Spanish. -/
noncomputable def get_simple_directions (from_lat from_lng : ℝ)
    (to_gate airport_code language : String) : String :=
  match get_gate_location airport_code to_gate with
  | none =>
    if language == "es" then
      "Dirijase a la puerta " ++ to_gate ++ ". Consulte las pantallas del aeropuerto."
    else
      "Head towards gate " ++ to_gate ++ ". Check airport displays for directions."
  | some gate_location =>
    let terminal := gate_location.terminal
    let lat_diff := gate_location.lat - from_lat
    let lng_diff := gate_location.lng - from_lng
    let direction :=
      if |lat_diff| > |lng_diff| then (if lat_diff > 0 then "north" else "south")
      else (if lng_diff > 0 then "east" else "west")
    let direction_es :=
      if |lat_diff| > |lng_diff| then (if lat_diff > 0 then "norte" else "sur")
      else (if lng_diff > 0 then "este" else "oeste")
    if language == "es" then
      (if terminal ≠ "" then
        "Dirijase hacia el " ++ direction_es ++ " hacia la Terminal " ++ terminal ++
          ". Su puerta " ++ to_gate ++ " esta en esa direccion."
      else "Dirijase hacia el " ++ direction_es ++ " hacia la puerta " ++ to_gate ++ ".")
    else
      (if terminal ≠ "" then
        "Head " ++ direction ++ " towards Terminal " ++ terminal ++ ". Gate " ++
          to_gate ++ " is in that direction."
      else "Head " ++ direction ++ " towards gate " ++ to_gate ++ ".")

/-- `models.Passenger` (the fields read by the alerting subsystem). -/
structure Passenger where
  first_name : String
  last_name : String
  phone : Option String
  email : Option String
  language_preference : Option String

/-- `models.Flight` (the fields read here); `departure_time` is a timestamp
in minutes, `gate` is a nullable char field. -/
structure Flight where
  flight_number : String
  origin : String
  destination : String
  gate : Option String
  departure_time : ℚ

/-- `models.FlightSegment`; its `flight` foreign key is non-nullable. -/
structure FlightSegment where
  flight : Flight
  seat : Option String

/-- `models.Reservation` (fields read here); `flight_segments` is ordered
by `segment_order`, so `.first()` is the list head. -/
structure Reservation where
  passenger : Passenger
  flight_segments : List FlightSegment

/-- `models.PassengerLocation`: one GPS fix, timestamp in minutes. -/
structure LocationFix where
  latitude : ℝ
  longitude : ℝ
  accuracy : Option ℝ
  timestamp : ℚ

/-- `models.LocationAlert` (the database-generated row id is not
modelled). -/
structure LocationAlert where
  alert_type : String
  message : String
  distance_to_gate : Option ℤ
  estimated_walking_time : Option ℤ
  time_to_departure : Option ℤ
  acknowledged : Bool
  voice_call_sent : Bool
  email_sent : Bool
  created_at : ℚ

/-- The `location_alert` summary the dispatcher writes into
`session.context`. -/
structure AlertContextEntry where
  alert_type : String
  timestamp : ℚ
  message : String
  distance_meters : Option ℤ
  walking_time_minutes : Option ℤ
  time_to_departure_minutes : Option ℤ

/-- The keys of the free-form `session.context` dict that the alerting
subsystem reads or writes. -/
structure SessionContext where
  helper_email : Option String
  location_alert : Option AlertContextEntry

/-- `models.Session` (fields used by this subsystem). `locations` and
`location_alerts` are newest-first, matching `ordering = ['-timestamp']`
and `ordering = ['-created_at']`. -/
structure Session where
  locations : List LocationFix
  location_alerts : List LocationAlert
  reservation : Option Reservation
  context : Option SessionContext

/-- `location_service.AlertStatus` enum. -/
inductive AlertStatus
  | safe
  | warning
  | urgent
  | arrived
deriving DecidableEq

/-- The `.value` attribute of the `AlertStatus` enum. -/
def AlertStatus.value : AlertStatus → String
  | .safe => "safe"
  | .warning => "warning"
  | .urgent => "urgent"
  | .arrived => "arrived"

/-- `LocationService.MIN_MOVEMENT_THRESHOLD` (meters). -/
def MIN_MOVEMENT_THRESHOLD : ℝ := 50

/-- `LocationService.GATE_ARRIVAL_THRESHOLD` (meters). -/
def GATE_ARRIVAL_THRESHOLD : ℝ := 100

/-- `LocationService.SAFE_BUFFER` (minutes). -/
def SAFE_BUFFER : ℤ := 30

/-- `LocationService.WARNING_BUFFER` (minutes). -/
def WARNING_BUFFER : ℤ := 15

/-- `LocationService.update_location`. `session?` is the result of the
session lookup, `now` is the creation timestamp of a stored fix. Returns
the Python return value (the stored fix, or `None`) together with the
resulting session state. -/
noncomputable def update_location (now : ℚ) (session? : Option Session)
    (lat lng : ℝ) (accuracy : Option ℝ) : Option LocationFix × Option Session :=
  match session? with
  | none => (none, none)
  | some session =>
    let last_location := session.locations.head?
    let should_store :=
      match last_location with
      | some l => ¬ (calculate_distance l.latitude l.longitude lat lng < MIN_MOVEMENT_THRESHOLD)
      | none => True
    if should_store then
      let location : LocationFix := ⟨lat, lng, accuracy, now⟩
      (some location, some { session with locations := location :: session.locations })
    else
      (none, some session)

/-- `LocationService.get_current_location`: the most recent fix of the
session (the dict it builds carries exactly the fields of the fix). -/
def get_current_location (session : Session) : Option LocationFix :=
  session.locations.head?

/-- The dict returned by `get_gate_location_for_session`. -/
structure SessionGateLocation where
  lat : ℝ
  lng : ℝ
  gate : String
  terminal : String
  approximate : Bool

/-- `LocationService.get_gate_location_for_session`: resolve the first
flight segment's gate through `get_gate_location`; `None` when the session
has no reservation, no segment, or the flight has no (truthy) gate. -/
def get_gate_location_for_session (session : Session) : Option SessionGateLocation :=
  match session.reservation with
  | none => none
  | some reservation =>
    match reservation.flight_segments.head? with
    | none => none
    | some segment =>
      let flight := segment.flight
      match flight.gate with
      | none => none
      | some g =>
        if g == "" then none
        else
          match get_gate_location flight.origin g with
          | some gate_loc =>
            some ⟨gate_loc.lat, gate_loc.lng, g, gate_loc.terminal, gate_loc.approximate⟩
          | none => none

/-- `LocationService.estimate_walking_time`: distance divided by the speed
of the pace profile (`WALKING_SPEEDS.get(pace, WALKING_SPEEDS['elderly'])`),
rounded, with a floor of one minute. -/
noncomputable def estimate_walking_time (distance_meters : ℝ) (pace : String) : ℤ :=
  let speed := (WALKING_SPEEDS.lookup pace).getD ((WALKING_SPEEDS.lookup "elderly").getD 0)
  let minutes := distance_meters / speed
  max 1 (pyRound minutes)

/-- The result dict of `check_alert_status`. -/
structure AlertCheckResult where
  alert_status : String
  distance_meters : Option ℤ
  walking_time_minutes : Option ℤ
  time_to_departure_minutes : Option ℤ
  message : String
  directions : String

/-- The initial `result` dict of `check_alert_status`, with its `message`
field set (every early return mutates only `message`). -/
def alertResultBase (msg : String) : AlertCheckResult :=
  ⟨AlertStatus.safe.value, none, none, none, msg, ""⟩

/-- The four-way classification at the end of `check_alert_status`
(`location_service.py` lines 304-316), as a function of the raw distance
and of the already-clamped time to departure. -/
noncomputable def classify_status (distance : ℝ) (time_to_departure : ℤ) : AlertStatus :=
  if distance ≤ GATE_ARRIVAL_THRESHOLD then AlertStatus.arrived
  else if estimate_walking_time distance "elderly" > time_to_departure - WARNING_BUFFER then
    AlertStatus.urgent
  else if estimate_walking_time distance "elderly" > time_to_departure - SAFE_BUFFER then
    AlertStatus.warning
  else AlertStatus.safe

/-- `LocationService.check_alert_status`. `now` is `timezone.now()` in
minutes. The branch for a missing reservation cannot be reached once the
gate resolved; it is mapped to the same `Flight information not available`
early return as a missing segment. -/
noncomputable def check_alert_status (now : ℚ) (session? : Option Session) : AlertCheckResult :=
  match session? with
  | none => alertResultBase "Session not found"
  | some session =>
    match get_current_location session with
    | none => alertResultBase "No location data available"
    | some user_location =>
      match get_gate_location_for_session session with
      | none => alertResultBase "Gate information not available"
      | some gate_location =>
        match session.reservation with
        | none => alertResultBase "Flight information not available"
        | some reservation =>
          match reservation.flight_segments.head? with
          | none => alertResultBase "Flight information not available"
          | some segment =>
            let departure_time := segment.flight.departure_time
            let distance := calculate_distance user_location.latitude user_location.longitude
              gate_location.lat gate_location.lng
            let walking_time := estimate_walking_time distance "elderly"
            let time_to_departure := max 0 (truncQ (departure_time - now))
            let directions := get_simple_directions user_location.latitude
              user_location.longitude gate_location.gate segment.flight.origin
              (orDefault reservation.passenger.language_preference "en")
            if distance ≤ GATE_ARRIVAL_THRESHOLD then
              ⟨AlertStatus.arrived.value, some (pyRound distance), some walking_time,
                some time_to_departure,
                "You\x27ve arrived at gate " ++ gate_location.gate ++ "!", directions⟩
            else if walking_time > time_to_departure - WARNING_BUFFER then
              ⟨AlertStatus.urgent.value, some (pyRound distance), some walking_time,
                some time_to_departure,
                "Urgent: You may miss your flight! Gate closes in " ++
                  toString (time_to_departure - 15) ++ " minutes.", directions⟩
            else if walking_time > time_to_departure - SAFE_BUFFER then
              ⟨AlertStatus.warning.value, some (pyRound distance), some walking_time,
                some time_to_departure,
                "Please head to your gate now. It\x27s about " ++ toString walking_time ++
                  " minutes away.", directions⟩
            else
              ⟨AlertStatus.safe.value, some (pyRound distance), some walking_time,
                some time_to_departure,
                "You have plenty of time. Gate " ++ gate_location.gate ++ " is about " ++
                  toString walking_time ++ " minutes away.", directions⟩

/-- The `metrics` sub-dict of `get_location_metrics` (all four keys are
always present; their values may be `None`). -/
structure MetricsDict where
  distance_meters : Option ℤ
  walking_time_minutes : Option ℤ
  time_to_departure_minutes : Option ℤ
  alert_status : String

/-- The result dict of `LocationService.get_location_metrics`. -/
structure LocationMetrics where
  passenger_location : Option LocationFix
  gate_location : Option SessionGateLocation
  metrics : MetricsDict
  directions : String
  message : String
  alert : Option LocationAlert

/-- `LocationService.get_location_metrics`: bundle the current fix, the
gate, the computed status metrics and the most recent unacknowledged
alert. -/
noncomputable def get_location_metrics (now : ℚ) (session? : Option Session) : LocationMetrics :=
  let user_location := session?.bind get_current_location
  let gate_location := session?.bind get_gate_location_for_session
  let alert_status := check_alert_status now session?
  { passenger_location := user_location
    gate_location := gate_location
    metrics := ⟨alert_status.distance_meters, alert_status.walking_time_minutes,
      alert_status.time_to_departure_minutes, alert_status.alert_status⟩
    directions := alert_status.directions
    message := alert_status.message
    alert := session?.bind fun s => (s.location_alerts.filter (fun al => !al.acknowledged)).head? }

/-- What `reminder_service.create_reminder_call` returns on success: a dict
from which the dispatcher reads `call_id` (best-effort collaborator,
`None` on failure). -/
structure CallResult where
  call_id : Option String

/-- The result dict built by `send_running_late_alert` /
`send_urgent_alert`. An `Option` field set to `none` models a key that is
absent from the dict (the database-generated `alert_id` is not
modelled). -/
structure AlertDispatchResult where
  alert_type : String
  message : String
  voice_call_sent : Option Bool
  email_sent : Option Bool
  call_id : Option (Option String)

/-- Everything observable about one dispatcher call: the Python return
value, the resulting database state, and whether the voice-call and
helper-email collaborators were invoked. -/
structure DispatchEffects where
  result : Option AlertDispatchResult
  db : Option Session
  voice_attempted : Bool
  email_attempted : Bool

/-- `LocationAlertService.ALERT_COOLDOWN` (minutes). -/
def ALERT_COOLDOWN : ℚ := 10

/-- The cooldown query: is there an alert of this type created within the
last `win` minutes (`created_at__gte = now - win`)? -/
def hasRecentAlert (session : Session) (ty : String) (now win : ℚ) : Bool :=
  session.location_alerts.any fun al =>
    al.alert_type == ty && decide (now - win ≤ al.created_at)

/-- `LocationAlertService._get_helper_email`: the helper e-mail from the
session context, when present and truthy. -/
def get_helper_email (session : Session) : Option String :=
  match session.context with
  | none => none
  | some ctx =>
    match ctx.helper_email with
    | some e => if e == "" then none else some e
    | none => none

/-- `LocationAlertService._build_alert_message`. The walking-time and
time-to-departure values come from the metrics dict and may be `None`,
which a Python f-string renders as `"None"`. -/
def build_alert_message (first_name gate : String)
    (walking_time time_to_departure : Option ℤ) (language : String) : String :=
  if language == "es" then
    first_name ++ ", puede estar llegando tarde a su puerta. La puerta " ++ gate ++
      " esta a aproximadamente " ++ strOfOptInt walking_time ++
      " minutos caminando, y su vuelo sale en " ++ strOfOptInt time_to_departure ++
      " minutos. Por favor dirijase a la puerta ahora."
  else
    first_name ++ ", you may be running late for your gate. Gate " ++ gate ++
      " is about " ++ strOfOptInt walking_time ++
      " minutes away, and your flight departs in " ++ strOfOptInt time_to_departure ++
      " minutes. Please head to your gate now."

/-- `LocationAlertService._build_urgent_message`. The f-string computes
`time_to_departure - 15` on the raw value, so a `None` time-to-departure
raises `TypeError`; that raise is modelled as `Except.error ()`. The
`walking_time` value is only rendered (`str(None)` is `"None"`), so it
never raises. -/
def build_urgent_message (first_name gate : String)
    (walking_time time_to_departure : Option ℤ) (language : String) : Except Unit String :=
  match time_to_departure with
  | none => Except.error ()
  | some t =>
    Except.ok <|
      if language == "es" then
        "URGENTE: " ++ first_name ++ ", puede perder su vuelo! La puerta " ++ gate ++
          " cierra en " ++ toString (t - 15) ++
          " minutos y usted esta a " ++ strOfOptInt walking_time ++
          " minutos de distancia. Por favor corra a su puerta inmediatamente!"
      else
        "URGENT: " ++ first_name ++ ", you may miss your flight! Gate " ++ gate ++
          " closes in " ++ toString (t - 15) ++
          " minutes and you are " ++ strOfOptInt walking_time ++
          " minutes away. Please hurry to your gate immediately!"

/-- `LocationAlertService.send_running_late_alert`. `session?` is the
session lookup result, `metrics` is the value of
`location_service.get_location_metrics(session_id)`, `call_res` is what
`reminder_service.create_reminder_call` returns when invoked, and
`email_res` is what `_send_helper_email` returns when invoked (its
Resend-configuration check and exception handling are folded into that
collaborator outcome). -/
def send_running_late_alert (now : ℚ) (session? : Option Session)
    (metrics : LocationMetrics) (call_res : Option CallResult)
    (email_res : Option Unit) (force : Bool) : DispatchEffects :=
  match session? with
  | none => ⟨none, none, false, false⟩
  | some session =>
    match session.reservation with
    | none => ⟨none, some session, false, false⟩
    | some reservation =>
      if !force && hasRecentAlert session "running_late" now ALERT_COOLDOWN then
        ⟨none, some session, false, false⟩
      else
        let passenger := reservation.passenger
        match reservation.flight_segments.head? with
        | none => ⟨none, some session, false, false⟩
        | some segment =>
          let flight := segment.flight
          let distance := metrics.metrics.distance_meters
          let walking_time := metrics.metrics.walking_time_minutes
          let time_to_departure := metrics.metrics.time_to_departure_minutes
          let message := build_alert_message passenger.first_name
            (orDefault flight.gate "your gate") walking_time time_to_departure
            (orDefault passenger.language_preference "en")
          let voice :=
            if strTruthy passenger.phone then
              match call_res with
              | some cr => (true, some cr.call_id)
              | none => (false, (none : Option (Option String)))
            else (false, none)
          let helper_email := get_helper_email session
          let email_sent := helper_email.isSome && email_res.isSome
          let alert : LocationAlert :=
            ⟨"running_late", message, distance, walking_time, time_to_departure,
              false, voice.1, email_sent, now⟩
          let ctx0 := session.context.getD ⟨none, none⟩
          let entry : AlertContextEntry :=
            ⟨"running_late", now, message, distance, walking_time, time_to_departure⟩
          let ctx := { ctx0 with location_alert := some entry }
          let newSession := { session with
            location_alerts := alert :: session.location_alerts
            context := some ctx }
          ⟨some ⟨"running_late", message, some voice.1, some email_sent, voice.2⟩,
            some newSession, strTruthy passenger.phone, helper_email.isSome⟩

/-- `LocationAlertService.send_urgent_alert`: five-minute cooldown, voice
call only (no helper e-mail step), no context update; the result dict
carries `voice_call_sent` only when the call succeeded and never carries
`email_sent` or `call_id`. The message is built before the
`LocationAlert.objects.create` call, so when the metrics carry a `None`
time-to-departure the `TypeError` from `_build_urgent_message` propagates
(`Except.error`) and nothing is persisted or returned. -/
def send_urgent_alert (now : ℚ) (session? : Option Session)
    (metrics : LocationMetrics) (call_res : Option CallResult)
    (force : Bool) : Except Unit DispatchEffects :=
  match session? with
  | none => Except.ok ⟨none, none, false, false⟩
  | some session =>
    match session.reservation with
    | none => Except.ok ⟨none, some session, false, false⟩
    | some reservation =>
      if !force && hasRecentAlert session "urgent" now 5 then
        Except.ok ⟨none, some session, false, false⟩
      else
        let passenger := reservation.passenger
        match reservation.flight_segments.head? with
        | none => Except.ok ⟨none, some session, false, false⟩
        | some segment =>
          let flight := segment.flight
          let walking_time := metrics.metrics.walking_time_minutes
          let time_to_departure := metrics.metrics.time_to_departure_minutes
          match build_urgent_message passenger.first_name
            (orDefault flight.gate "your gate") walking_time time_to_departure
            (orDefault passenger.language_preference "en") with
          | Except.error e => Except.error e
          | Except.ok message =>
            let voice_ok := strTruthy passenger.phone && call_res.isSome
            let alert : LocationAlert :=
              ⟨"urgent", message, metrics.metrics.distance_meters, walking_time,
                time_to_departure, false, voice_ok, false, now⟩
            let newSession := { session with
              location_alerts := alert :: session.location_alerts }
            Except.ok
              ⟨some ⟨"urgent", message, if voice_ok then some true else none, none, none⟩,
                some newSession, strTruthy passenger.phone, false⟩

/-- `LocationAlertService.check_and_send_alerts`: recompute the metrics and
route URGENT to the urgent alert, WARNING to the running-late alert, and
everything else to no action. The `Except.error` arm of the urgent branch
is unreachable: an URGENT status coming out of `get_location_metrics`
always comes with a numeric time-to-departure (lemma
`check_alert_status_urgent_ttd_some` below), so `send_urgent_alert` cannot
raise at this call site and the arm's value is never produced. -/
noncomputable def check_and_send_alerts (now : ℚ) (session? : Option Session)
    (call_res : Option CallResult) (email_res : Option Unit) : DispatchEffects :=
  let metrics := get_location_metrics now session?
  let alert_status := metrics.metrics.alert_status
  if alert_status == AlertStatus.urgent.value then
    match send_urgent_alert now session? metrics call_res false with
    | Except.ok E => E
    | Except.error _ => ⟨none, session?, false, false⟩
  else if alert_status == AlertStatus.warning.value then
    send_running_late_alert now session? metrics call_res email_res false
  else
    ⟨none, session?, false, false⟩

/-- The JSON body of the `update_location` view response (the
database-generated `location_id` is not modelled). -/
structure LocationUpdateResponse where
  stored : Bool
  metrics : MetricsDict
  alert_status : String
  directions : String
  alert_triggered : Bool

/-- `views.update_location` after request validation: store the fix, run
`check_and_send_alerts` only when a fix was stored, then report the
current metrics. Returns the response, the resulting database state, and
whether `check_and_send_alerts` was invoked. -/
noncomputable def update_location_view (now : ℚ) (session? : Option Session)
    (lat lng : ℝ) (accuracy : Option ℝ) (call_res : Option CallResult)
    (email_res : Option Unit) : LocationUpdateResponse × Option Session × Bool :=
  let stored := update_location now session? lat lng accuracy
  let afterAlerts :=
    match stored.1 with
    | some _ =>
      let E := check_and_send_alerts now stored.2 call_res email_res
      (E.result, E.db, true)
    | none => (none, stored.2, false)
  let metrics := get_location_metrics now afterAlerts.2.1
  (⟨(stored.1).isSome, metrics.metrics, metrics.metrics.alert_status,
     metrics.directions, afterAlerts.1.isSome⟩,
   afterAlerts.2.1, afterAlerts.2.2)

lemma pyRound_le_add_half (x : ℝ) : (pyRound x : ℝ) ≤ x + 1/2 := by
  have h1 := Int.floor_le x
  have h2 := Int.lt_floor_add_one x
  unfold pyRound
  split_ifs <;> push_cast <;> linarith

lemma sub_half_le_pyRound (x : ℝ) : x - 1/2 ≤ (pyRound x : ℝ) := by
  have h1 := Int.floor_le x
  have h2 := Int.lt_floor_add_one x
  unfold pyRound
  split_ifs <;> push_cast <;> linarith

lemma abs_pyRound_sub_le (x : ℝ) : |(pyRound x : ℝ) - x| ≤ 1/2 := by
  rw [abs_le]
  constructor
  · linarith [sub_half_le_pyRound x]
  · linarith [pyRound_le_add_half x]

lemma pyRound_eq_of_bounds (n : ℤ) (x : ℝ) (h1 : (n : ℝ) - 1/2 < x)
    (h2 : x < (n : ℝ) + 1/2) : pyRound x = n := by
  have hlb : n - 1 ≤ ⌊x⌋ := Int.le_floor.mpr (by push_cast; linarith)
  have hub : ⌊x⌋ < n + 1 := Int.floor_lt.mpr (by push_cast; linarith)
  unfold pyRound
  rcases (by omega : ⌊x⌋ = n - 1 ∨ ⌊x⌋ = n) with h | h
  · have hc : ((⌊x⌋ : ℤ) : ℝ) = (n : ℝ) - 1 := by rw [h]; push_cast; ring
    have hgt : 1/2 < x - (⌊x⌋ : ℝ) := by rw [hc]; linarith
    rw [if_neg (by linarith), if_pos hgt, h]
    omega
  · have hc : ((⌊x⌋ : ℤ) : ℝ) = (n : ℝ) := by rw [h]
    have hlt : x - (⌊x⌋ : ℝ) < 1/2 := by rw [hc]; linarith
    rw [if_pos hlt, h]

lemma pyRound_mono {x y : ℝ} (h : x ≤ y) : pyRound x ≤ pyRound y := by
  rcases lt_or_le ⌊x⌋ ⌊y⌋ with hf | hf
  · have hx1 : pyRound x ≤ ⌊x⌋ + 1 := by unfold pyRound; split_ifs <;> omega
    have hy1 : ⌊y⌋ ≤ pyRound y := by unfold pyRound; split_ifs <;> omega
    omega
  · have hf3 : ⌊x⌋ = ⌊y⌋ := le_antisymm (Int.floor_le_floor h) hf
    have hr : x - (⌊y⌋ : ℝ) ≤ y - (⌊y⌋ : ℝ) := by linarith
    unfold pyRound
    rw [hf3]
    split_ifs <;> first | omega | linarith

lemma calculate_distance_self (lat lng : ℝ) : calculate_distance lat lng lat lng = 0 := by
  simp [calculate_distance, atan2, radiansOfDeg, sub_self, Real.sqrt_zero, Real.sqrt_one,
    Real.arctan_zero]

lemma gate_B22_eval : get_gate_location "DFW" "B22" =
    some ⟨32.8986, (-97.0363), "B", false⟩ := by
  rfl

lemma arctan_nonneg_of_nonneg {t : ℝ} (ht : 0 ≤ t) : 0 ≤ Real.arctan t := by
  have h := Real.arctan_strictMono.monotone ht
  rwa [Real.arctan_zero] at h

lemma arctan_le_self {t : ℝ} (ht : 0 ≤ t) : Real.arctan t ≤ t := by
  have h0 : 0 ≤ Real.arctan t := arctan_nonneg_of_nonneg ht
  have h1 : Real.arctan t < Real.pi / 2 := Real.arctan_lt_pi_div_two t
  have h2 := Real.le_tan h0 h1
  rwa [Real.tan_arctan] at h2

lemma mul_one_sub_sq_le_arctan {t : ℝ} (ht : 0 ≤ t) (ht1 : t ≤ 1) :
    t * (1 - t ^ 2) ≤ Real.arctan t := by
  have h0 : 0 ≤ Real.arctan t := arctan_nonneg_of_nonneg ht
  have hsin : Real.sin (Real.arctan t) ≤ Real.arctan t := Real.sin_le h0
  rw [Real.sin_arctan] at hsin
  have hvpos : 0 < Real.sqrt (1 + t ^ 2) := Real.sqrt_pos.mpr (by positivity)
  have hv2 : Real.sqrt (1 + t ^ 2) ^ 2 = 1 + t ^ 2 := Real.sq_sqrt (by positivity)
  have h2 : t ^ 2 ≤ 1 := by nlinarith [mul_nonneg ht (sub_nonneg.mpr ht1)]
  have h4 : t ^ 4 ≤ 1 := by nlinarith [mul_nonneg (sq_nonneg t) (sub_nonneg.mpr h2)]
  have hA : (1 - t ^ 2) * Real.sqrt (1 + t ^ 2) ≤ 1 := by
    nlinarith [sq_nonneg ((1 - t ^ 2) * Real.sqrt (1 + t ^ 2) - 1),
      Real.sqrt_nonneg (1 + t ^ 2), sq_nonneg t,
      mul_nonneg (mul_nonneg ht ht) (sub_nonneg.mpr h4)]
  have key : t * (1 - t ^ 2) * Real.sqrt (1 + t ^ 2) ≤ t := by
    have := mul_le_mul_of_nonneg_left hA ht
    nlinarith [this]
  calc t * (1 - t ^ 2) ≤ t / Real.sqrt (1 + t ^ 2) := by
        rw [le_div_iff hvpos]; exact key
    _ ≤ Real.arctan t := hsin

lemma atan2_of_pos_x {y x : ℝ} (hx : 0 < x) : atan2 y x = Real.arctan (y / x) := by
  unfold atan2
  rw [if_pos hx]

lemma sqrt_le_of_sq_le {a u : ℝ} (hu : 0 ≤ u) (h : a ≤ u ^ 2) : Real.sqrt a ≤ u := by
  calc Real.sqrt a ≤ Real.sqrt (u ^ 2) := Real.sqrt_le_sqrt h
    _ = u := Real.sqrt_sq hu

lemma sin_small_sq {x xL xU C3 sxL sL sU : ℝ} (hx0 : 0 < xL) (hbl : xL ≤ x) (hbu : x ≤ xU)
    (hle1 : xU ≤ 1) (h3 : xU ^ 3 ≤ C3) (hsxL : sxL ≤ xL - C3 / 4) (hsx0 : 0 ≤ sxL)
    (hsL : sL ≤ sxL ^ 2) (hsU : xU ^ 2 ≤ sU) :
    sL ≤ Real.sin x ^ 2 ∧ Real.sin x ^ 2 ≤ sU := by
  have hxpos : 0 < x := lt_of_lt_of_le hx0 hbl
  have hsup : Real.sin x ≤ x := Real.sin_le hxpos.le
  have hcube : x - x ^ 3 / 4 < Real.sin x := Real.sin_gt_sub_cube hxpos (le_trans hbu hle1)
  have h3x : x ^ 3 ≤ C3 := le_trans (pow_le_pow_left hxpos.le hbu 3) h3
  have hlow : sxL ≤ Real.sin x := by nlinarith
  have hsin_pos : 0 ≤ Real.sin x := le_trans hsx0 hlow
  constructor
  · nlinarith [hlow, hsin_pos, hsx0]
  · nlinarith [hsup, hsin_pos, hbu, hxpos.le]

lemma sin_bound_interval {h hL hU C3L C3U C4U : ℝ} (hLpos : 0 < hL) (hbl : hL ≤ h)
    (hbu : h ≤ hU) (hle1 : hU ≤ 1) (h3L : C3L ≤ hL ^ 3) (h3U : hU ^ 3 ≤ C3U)
    (h4U : hU ^ 4 ≤ C4U) :
    hL - C3U / 6 - C4U * 5 / 96 ≤ Real.sin h ∧
      Real.sin h ≤ hU - C3L / 6 + C4U * 5 / 96 := by
  have hpos : 0 < h := lt_of_lt_of_le hLpos hbl
  have habs : |h| ≤ 1 := by rw [abs_of_pos hpos]; linarith
  have hsb := Real.sin_bound habs
  rw [abs_of_pos hpos] at hsb
  have hsb2 := abs_le.mp hsb
  have hcube_u : h ^ 3 ≤ C3U := le_trans (pow_le_pow_left hpos.le hbu 3) h3U
  have hcube_l : C3L ≤ h ^ 3 := le_trans h3L (pow_le_pow_left hLpos.le hbl 3)
  have h4 : h ^ 4 ≤ C4U := le_trans (pow_le_pow_left hpos.le hbu 4) h4U
  have h40 : 0 ≤ h ^ 4 := by positivity
  constructor
  · nlinarith [hsb2.1]
  · nlinarith [hsb2.2]

lemma cos_double_bound {h shL shU cL cU : ℝ} (hsinL : shL ≤ Real.sin h)
    (hsinU : Real.sin h ≤ shU) (hshL : 0 ≤ shL)
    (hcL : cL ≤ 1 - 2 * shU ^ 2) (hcU : 1 - 2 * shL ^ 2 ≤ cU) :
    cL ≤ Real.cos (2 * h) ∧ Real.cos (2 * h) ≤ cU := by
  have hid : Real.cos (2 * h) = 1 - 2 * Real.sin h ^ 2 := by
    have hpy := Real.sin_sq_add_cos_sq h
    rw [Real.cos_two_mul]
    linarith
  constructor <;> rw [hid] <;> nlinarith [hsinL, hsinU, hshL]

/-- Bounds for the haversine arc formula given interval bounds on the
intermediate quantity `a`, specialised to the interval that arises in the
gate-B22 scenario. -/
lemma dist_expr_bounds (a : ℝ) (haL : 0.000000000856669 ≤ a)
    (haU : a ≤ 0.000000000857166) :
    372.9 ≤ 6371000 * (2 * atan2 (Real.sqrt a) (Real.sqrt (1 - a))) ∧
      6371000 * (2 * atan2 (Real.sqrt a) (Real.sqrt (1 - a))) ≤ 373.1 := by
  have ha0 : (0 : ℝ) < a := lt_of_lt_of_le (by norm_num) haL
  have h1a : (0 : ℝ) < 1 - a := by nlinarith
  have hw0 : 0 < Real.sqrt (1 - a) := Real.sqrt_pos.mpr h1a
  rw [atan2_of_pos_x hw0]
  have hu_l : (0.0000292689 : ℝ) ≤ Real.sqrt a := by
    apply Real.le_sqrt_of_sq_le
    nlinarith
  have hu_u : Real.sqrt a ≤ 0.0000292775 := by
    apply sqrt_le_of_sq_le (by norm_num)
    nlinarith
  have hw_l : (0.999999 : ℝ) ≤ Real.sqrt (1 - a) := by
    apply Real.le_sqrt_of_sq_le
    nlinarith
  have hw_u : Real.sqrt (1 - a) ≤ 1 := by
    have h := Real.sqrt_le_sqrt (show 1 - a ≤ 1 by linarith)
    rwa [Real.sqrt_one] at h
  set t := Real.sqrt a / Real.sqrt (1 - a) with htdef
  have ht0 : 0 ≤ t := div_nonneg (Real.sqrt_nonneg a) (Real.sqrt_nonneg _)
  have ht_l : (0.0000292689 : ℝ) ≤ t := by
    rw [htdef, le_div_iff hw0]
    nlinarith [Real.sqrt_nonneg (1 - a)]
  have ht_u : t ≤ 0.0000292776 := by
    rw [htdef, div_le_iff hw0]
    nlinarith
  have ht1 : t ≤ 1 := le_trans ht_u (by norm_num)
  have harc_u : Real.arctan t ≤ 0.0000292776 := le_trans (arctan_le_self ht0) ht_u
  have harc_l : (0.0000292688 : ℝ) ≤ Real.arctan t := by
    have harc := mul_one_sub_sq_le_arctan ht0 ht1
    have ht2 : t ^ 2 ≤ (0.0000292776 : ℝ) ^ 2 := pow_le_pow_left ht0 ht_u 2
    nlinarith [ht_l, ht2, ht0]
  constructor <;> nlinarith [harc_l, harc_u]

set_option maxHeartbeats 2000000 in
/-- Interval bounds for the quantity `a` of the haversine formula between
the Terminal-C fix (32.8958, -97.0385) and gate B22 (32.8986, -97.0363),
in the canonical form produced by rewriting the radian conversions. -/
lemma aB22_canon_bounds :
    0.000000000856669 ≤ Real.sin (7 / 900000 * Real.pi) ^ 2 +
        Real.cos (2 * (164479 / 1800000 * Real.pi)) *
          Real.cos (2 * (164493 / 1800000 * Real.pi)) *
          Real.sin (11 / 1800000 * Real.pi) ^ 2 ∧
      Real.sin (7 / 900000 * Real.pi) ^ 2 +
        Real.cos (2 * (164479 / 1800000 * Real.pi)) *
          Real.cos (2 * (164493 / 1800000 * Real.pi)) *
          Real.sin (11 / 1800000 * Real.pi) ^ 2 ≤ 0.000000000857166 := by
  have hπL : (3.141592 : ℝ) < Real.pi := Real.pi_gt_d6
  have hπU : Real.pi < 3.141593 := Real.pi_lt_d6
  have hs1 := @sin_small_sq (7 / 900000 * Real.pi) 0.0000244346044 0.0000244346123
    0.0000000000000146 0.0000244346043 0.000000000597049887 0.000000000597050279
    (by norm_num) (by linarith) (by linarith) (by norm_num) (by norm_num) (by norm_num)
    (by norm_num) (by norm_num) (by norm_num)
  have hs2 := @sin_small_sq (11 / 1800000 * Real.pi) 0.0000191986177 0.0000191986239
    0.0000000000000071 0.0000191986176 0.0000000003685869177 0.000000000368587160
    (by norm_num) (by linarith) (by linarith) (by norm_num) (by norm_num) (by norm_num)
    (by norm_num) (by norm_num) (by norm_num)
  have hsh1 := @sin_bound_interval (164479 / 1800000 * Real.pi) 0.28706995031 0.28707004170
    0.023657192 0.023657216 0.006791278
    (by norm_num) (by linarith) (by linarith) (by norm_num) (by norm_num) (by norm_num)
    (by norm_num)
  have hsh2 := @sin_bound_interval (164493 / 1800000 * Real.pi) 0.28709438492 0.28709447631
    0.023663233 0.023663257 0.006793591
    (by norm_num) (by linarith) (by linarith) (by norm_num) (by norm_num) (by norm_num)
    (by norm_num)
  have hc1 := @cos_double_bound (164479 / 1800000 * Real.pi) 0.282773368 0.283480889
    0.839277171 0.840078445
    (by linarith [hsh1.1]) (by linarith [hsh1.2]) (by norm_num) (by norm_num) (by norm_num)
  have hc2 := @cos_double_bound (164493 / 1800000 * Real.pi) 0.282796675 0.283504438
    0.839250467 0.840052082
    (by linarith [hsh2.1]) (by linarith [hsh2.2]) (by norm_num) (by norm_num) (by norm_num)
  have hP : (0.70436375 : ℝ) ≤
      Real.cos (2 * (164479 / 1800000 * Real.pi)) * Real.cos (2 * (164493 / 1800000 * Real.pi)) ∧
      Real.cos (2 * (164479 / 1800000 * Real.pi)) * Real.cos (2 * (164493 / 1800000 * Real.pi)) ≤
        0.70570965 := by
    constructor <;> nlinarith [hc1.1, hc1.2, hc2.1, hc2.2]
  constructor <;> nlinarith [hs1.1, hs1.2, hs2.1, hs2.2, hP.1, hP.2]

/-- Interval bounds for the haversine distance between the Terminal-C fix
(32.8958, -97.0385) and gate B22 at DFW (32.8986, -97.0363): roughly 373
meters. -/
lemma dB22_bounds :
    372.9 ≤ calculate_distance 32.8958 (-97.0385) 32.8986 (-97.0363) ∧
      calculate_distance 32.8958 (-97.0385) 32.8986 (-97.0363) ≤ 373.1 := by
  simp only [calculate_distance, radiansOfDeg]
  rw [show ((32.8986 : ℝ) * (Real.pi / 180) - 32.8958 * (Real.pi / 180)) / 2 =
        7 / 900000 * Real.pi from by ring,
    show ((-97.0363 : ℝ) * (Real.pi / 180) - -97.0385 * (Real.pi / 180)) / 2 =
        11 / 1800000 * Real.pi from by ring,
    show (32.8958 : ℝ) * (Real.pi / 180) = 2 * (164479 / 1800000 * Real.pi) from by ring,
    show (32.8986 : ℝ) * (Real.pi / 180) = 2 * (164493 / 1800000 * Real.pi) from by ring]
  exact dist_expr_bounds _ aB22_canon_bounds.1 aB22_canon_bounds.2

/-- On the elderly pace, `estimate_walking_time` is the rounded division by
50 m/min floored at one minute. -/
lemma estimate_walking_time_elderly (d : ℝ) :
    estimate_walking_time d "elderly" = max 1 (pyRound (d / 50)) := rfl

/-- The rounded distance of the B22 scenario is 373 m. -/
lemma distance_round_B22 :
    pyRound (calculate_distance 32.8958 (-97.0385) 32.8986 (-97.0363)) = 373 := by
  have hd := dB22_bounds
  apply pyRound_eq_of_bounds
  · push_cast
    linarith [hd.1]
  · push_cast
    linarith [hd.2]

/-- The elderly walking time of the B22 scenario is 7 minutes. -/
lemma walking_B22 :
    estimate_walking_time (calculate_distance 32.8958 (-97.0385) 32.8986 (-97.0363))
      "elderly" = 7 := by
  rw [estimate_walking_time_elderly]
  have hd := dB22_bounds
  have h7 : pyRound (calculate_distance 32.8958 (-97.0385) 32.8986 (-97.0363) / 50) = 7 := by
    apply pyRound_eq_of_bounds
    · push_cast
      linarith [hd.1]
    · push_cast
      linarith [hd.2]
  rw [h7]
  decide

/-- Bridge lemma: when every precondition of `check_alert_status` holds,
the reported fields are the de-novo computed distance, walking time,
clamped time-to-departure, and the four-way classification of
`classify_status`. -/
lemma check_alert_status_fields (now : ℚ) (s : Session) (fix : LocationFix)
    (gl : SessionGateLocation) (r : Reservation) (seg : FlightSegment)
    (hfix : get_current_location s = some fix)
    (hgl : get_gate_location_for_session s = some gl)
    (hres : s.reservation = some r)
    (hseg : r.flight_segments.head? = some seg) :
    (check_alert_status now (some s)).alert_status =
      (classify_status (calculate_distance fix.latitude fix.longitude gl.lat gl.lng)
        (max 0 (truncQ (seg.flight.departure_time - now)))).value ∧
    (check_alert_status now (some s)).distance_meters =
      some (pyRound (calculate_distance fix.latitude fix.longitude gl.lat gl.lng)) ∧
    (check_alert_status now (some s)).walking_time_minutes =
      some (estimate_walking_time
        (calculate_distance fix.latitude fix.longitude gl.lat gl.lng) "elderly") ∧
    (check_alert_status now (some s)).time_to_departure_minutes =
      some (max 0 (truncQ (seg.flight.departure_time - now))) := by
  simp only [check_alert_status, hfix, hgl, hres, hseg, classify_status]
  split_ifs <;> simp [AlertStatus.value]

/-- Severity scale SAFE < WARNING < URGENT (< ARRIVED, which only occurs
within 100 m). -/
def severity : AlertStatus → ℕ
  | .safe => 0
  | .warning => 1
  | .urgent => 2
  | .arrived => 3

/-- The flight of the concrete B22 scenario: departs 20 minutes after the
reference instant `now = 0`. -/
def c5Flight : Flight := ⟨"AA100", "DFW", "LAX", some "B22", 20⟩

/-- The passenger of the concrete scenarios. -/
def c5Passenger : Passenger := ⟨"Maria", "Garcia", none, none, none⟩

/-- The reservation of the concrete B22 scenario. -/
def c5Reservation : Reservation := ⟨c5Passenger, [⟨c5Flight, none⟩]⟩

/-- The session of the concrete B22 scenario: one stored fix at
(32.8958, -97.0385). -/
def c5Session : Session :=
  ⟨[⟨32.8958, (-97.0385), none, 0⟩], [], some c5Reservation, none⟩

/-- Evaluation of `check_alert_status` on the B22 scenario: URGENT, 373 m,
7 minutes walk, 20 minutes to departure. -/
lemma c5_status_eval :
    (check_alert_status 0 (some c5Session)).alert_status = "urgent" ∧
    (check_alert_status 0 (some c5Session)).distance_meters = some 373 ∧
    (check_alert_status 0 (some c5Session)).walking_time_minutes = some 7 ∧
    (check_alert_status 0 (some c5Session)).time_to_departure_minutes = some 20 := by
  have hb := check_alert_status_fields 0 c5Session ⟨32.8958, (-97.0385), none, 0⟩
    ⟨32.8986, (-97.0363), "B22", "B", false⟩ c5Reservation ⟨c5Flight, none⟩
    rfl rfl rfl rfl
  dsimp only [c5Flight] at hb
  have httd : max (0 : ℤ) (truncQ ((20 : ℚ) - 0)) = 20 := by norm_num [truncQ]
  rw [httd] at hb
  obtain ⟨h1, h2, h3, h4⟩ := hb
  have hnot : ¬ (calculate_distance 32.8958 (-97.0385) 32.8986 (-97.0363) ≤
      GATE_ARRIVAL_THRESHOLD) := by
    simp only [GATE_ARRIVAL_THRESHOLD]
    nlinarith [dB22_bounds.1]
  refine ⟨?_, ?_, ?_, ?_⟩
  · rw [h1]
    simp only [classify_status]
    rw [if_neg hnot, if_pos]
    · rfl
    · rw [walking_B22]
      decide
  · rw [h2, distance_round_B22]
  · rw [h3, walking_B22]
  · exact h4

/-- The flight of the arrived scenario: same gate, departs in 60 minutes. -/
def arrivedFlight : Flight := ⟨"AA100", "DFW", "LAX", some "B22", 60⟩

/-- A session whose fix is exactly the B22 gate coordinate. -/
def arrivedSession : Session :=
  ⟨[⟨32.8986, (-97.0363), none, 0⟩], [], some ⟨c5Passenger, [⟨arrivedFlight, none⟩]⟩, none⟩

/-- Evaluation of `check_alert_status` at the gate itself: ARRIVED. -/
lemma arrived_status_eval :
    (check_alert_status 0 (some arrivedSession)).alert_status = "arrived" := by
  have hb := check_alert_status_fields 0 arrivedSession ⟨32.8986, (-97.0363), none, 0⟩
    ⟨32.8986, (-97.0363), "B22", "B", false⟩ ⟨c5Passenger, [⟨arrivedFlight, none⟩]⟩
    ⟨arrivedFlight, none⟩ rfl rfl rfl rfl
  rw [hb.1]
  simp only [classify_status]
  rw [calculate_distance_self, if_pos]
  · rfl
  · simp only [GATE_ARRIVAL_THRESHOLD]
    norm_num

/-- The latitude (in degrees) of a point exactly 50 m due north of the
origin on the spherical model. -/
noncomputable def lat50 : ℝ := 9000 / (6371000 * Real.pi)

/-- Along a meridian the haversine distance is exact: the point `lat50`
degrees north of the origin is exactly 50 m away. -/
lemma dist_meridian_50 : calculate_distance 0 0 lat50 0 = 50 := by
  simp only [calculate_distance, radiansOfDeg, lat50]
  have hπ : Real.pi ≠ 0 := Real.pi_ne_zero
  rw [show (9000 / (6371000 * Real.pi) * (Real.pi / 180) - 0 * (Real.pi / 180)) / 2 =
      25 / 6371000 from by field_simp; ring]
  rw [show ((0 : ℝ) * (Real.pi / 180) - 0 * (Real.pi / 180)) / 2 = 0 from by ring]
  rw [show (0 : ℝ) * (Real.pi / 180) = 0 from by ring]
  simp only [Real.sin_zero, ne_eq, OfNat.ofNat_ne_zero, not_false_eq_true, zero_pow,
    mul_zero, add_zero]
  have hθpos : (0 : ℝ) < 25 / 6371000 := by norm_num
  have hθlt : (25 : ℝ) / 6371000 < Real.pi / 2 := by
    nlinarith [Real.pi_gt_three]
  have hθltpi : (25 : ℝ) / 6371000 < Real.pi := by nlinarith [Real.pi_gt_three]
  have hsin_pos : 0 < Real.sin (25 / 6371000) :=
    Real.sin_pos_of_pos_of_lt_pi hθpos hθltpi
  have hcos_pos : 0 < Real.cos (25 / 6371000) :=
    Real.cos_pos_of_mem_Ioo ⟨by linarith, hθlt⟩
  rw [Real.sqrt_sq hsin_pos.le]
  rw [show (1 : ℝ) - Real.sin (25 / 6371000) ^ 2 = Real.cos (25 / 6371000) ^ 2 from by
    nlinarith [Real.sin_sq_add_cos_sq (25 / 6371000 : ℝ)]]
  rw [Real.sqrt_sq hcos_pos.le]
  rw [atan2_of_pos_x hcos_pos]
  rw [show Real.sin (25 / 6371000) / Real.cos (25 / 6371000) = Real.tan (25 / 6371000) from
    (Real.tan_eq_sin_div_cos _).symm]
  rw [Real.arctan_tan (by linarith) hθlt]
  norm_num

/-- A session holding a single fix at the origin and nothing else. -/
def s50 : Session := ⟨[⟨0, 0, none, 0⟩], [], none, none⟩

/-- Pushing the point exactly 50 m away from the stored fix IS stored by
`update_location` (the code suppresses only strictly smaller movements). -/
lemma update_location_s50 :
    (update_location 0 (some s50) lat50 0 none).1 = some ⟨lat50, 0, none, 0⟩ := by
  simp only [update_location, s50, List.head?]
  rw [if_pos]
  · rw [not_lt]
    simp only [MIN_MOVEMENT_THRESHOLD]
    rw [dist_meridian_50]

/-- Pushing the same point again is not stored: `update_location` returns
`None` and leaves the session unchanged. -/
lemma update_location_same_point :
    update_location 0 (some s50) 0 0 none = (none, some s50) := by
  simp only [update_location, s50, List.head?]
  rw [if_neg]
  rw [not_not, calculate_distance_self]
  simp only [MIN_MOVEMENT_THRESHOLD]
  norm_num

/-- The number of persisted alerts of a given type for a session. -/
def countType (session : Session) (ty : String) : ℕ :=
  (session.location_alerts.filter (fun al => al.alert_type == ty)).length

/-- `countType` lifted to a session-lookup result. -/
def countTypeO (session? : Option Session) (ty : String) : ℕ :=
  match session? with
  | none => 0
  | some s => countType s ty

/-- A running-late dispatch inside its cooldown window returns `None` with
no effects of any kind. -/
lemma running_late_suppressed (now : ℚ) (s : Session) (m : LocationMetrics)
    (c : Option CallResult) (e : Option Unit)
    (h : hasRecentAlert s "running_late" now ALERT_COOLDOWN = true) :
    send_running_late_alert now (some s) m c e false = ⟨none, some s, false, false⟩ := by
  rcases hres : s.reservation with _ | r <;>
    simp [send_running_late_alert, hres, h]

/-- An urgent dispatch inside its five-minute cooldown window returns
`None` with no effects of any kind (the cooldown check precedes the
message building, so no exception can occur on this path). -/
lemma urgent_suppressed (now : ℚ) (s : Session) (m : LocationMetrics)
    (c : Option CallResult) (h : hasRecentAlert s "urgent" now 5 = true) :
    send_urgent_alert now (some s) m c false = Except.ok ⟨none, some s, false, false⟩ := by
  rcases hres : s.reservation with _ | r <;>
    simp [send_urgent_alert, hres, h]

/-- Whenever `check_alert_status` reports URGENT it reports a numeric
time-to-departure: every early return carries status `safe`, and the
classification branch always sets `time_to_departure_minutes`. This is
what makes the `TypeError` path of `send_urgent_alert` unreachable from
`check_and_send_alerts`. -/
lemma check_alert_status_urgent_ttd_some (now : ℚ) (session? : Option Session)
    (h : (check_alert_status now session?).alert_status = AlertStatus.urgent.value) :
    ∃ t, (check_alert_status now session?).time_to_departure_minutes = some t := by
  rcases session? with _ | s
  · have hb : check_alert_status now (none : Option Session) =
        alertResultBase "Session not found" := rfl
    rw [hb] at h
    exact absurd h (by decide)
  · rcases hcur : get_current_location s with _ | fix
    · have hb : check_alert_status now (some s) = alertResultBase "No location data available" := by
        simp [check_alert_status, hcur]
      rw [hb] at h
      exact absurd h (by decide)
    · rcases hgl : get_gate_location_for_session s with _ | gl
      · have hb : check_alert_status now (some s) =
            alertResultBase "Gate information not available" := by
          simp [check_alert_status, hcur, hgl]
        rw [hb] at h
        exact absurd h (by decide)
      · rcases hres : s.reservation with _ | r
        · have hb : check_alert_status now (some s) =
              alertResultBase "Flight information not available" := by
            simp [check_alert_status, hcur, hgl, hres]
          rw [hb] at h
          exact absurd h (by decide)
        · rcases hseg : r.flight_segments.head? with _ | seg
          · have hb : check_alert_status now (some s) =
                alertResultBase "Flight information not available" := by
              simp [check_alert_status, hcur, hgl, hres, hseg]
            rw [hb] at h
            exact absurd h (by decide)
          · simp only [check_alert_status, hcur, hgl, hres, hseg]
            split_ifs <;> exact ⟨_, rfl⟩

/-- `send_urgent_alert` cannot raise when the metrics carry a numeric
time-to-departure: the only raise point is the `None - 15` arithmetic in
`_build_urgent_message`. -/
lemma send_urgent_alert_ok_of_ttd (now : ℚ) (session? : Option Session)
    (m : LocationMetrics) (c : Option CallResult) (force : Bool) (t : ℤ)
    (httd : m.metrics.time_to_departure_minutes = some t) :
    (send_urgent_alert now session? m c force).toOption.isSome = true := by
  rcases session? with _ | s
  · rfl
  · rcases hres : s.reservation with _ | r
    · simp [send_urgent_alert, hres, Except.toOption]
    · rcases hcool : (!force && hasRecentAlert s "urgent" now 5) with _ | _
      · rcases hseg : r.flight_segments.head? with _ | seg
        · simp [send_urgent_alert, hres, hseg, hcool, Except.toOption]
        · simp [send_urgent_alert, hres, hseg, hcool, httd, build_urgent_message,
            Except.toOption]
      · simp [send_urgent_alert, hres, hcool, Except.toOption]

/-- Full characterization of a running-late dispatch that proceeds past its
checks: the persisted alert, the updated context, the collaborator
invocations and the result dict. -/
lemma running_late_proceeds (now : ℚ) (s : Session) (m : LocationMetrics)
    (c : Option CallResult) (e : Option Unit) (force : Bool) (r : Reservation)
    (seg : FlightSegment) (hres : s.reservation = some r)
    (hseg : r.flight_segments.head? = some seg)
    (hcool : (!force && hasRecentAlert s "running_late" now ALERT_COOLDOWN) = false) :
    send_running_late_alert now (some s) m c e force =
      ⟨some ⟨"running_late",
          build_alert_message r.passenger.first_name (orDefault seg.flight.gate "your gate")
            m.metrics.walking_time_minutes m.metrics.time_to_departure_minutes
            (orDefault r.passenger.language_preference "en"),
          some (strTruthy r.passenger.phone && c.isSome),
          some ((get_helper_email s).isSome && e.isSome),
          if strTruthy r.passenger.phone then c.map (fun cr => cr.call_id) else none⟩,
        some { s with
          location_alerts :=
            ⟨"running_late",
              build_alert_message r.passenger.first_name (orDefault seg.flight.gate "your gate")
                m.metrics.walking_time_minutes m.metrics.time_to_departure_minutes
                (orDefault r.passenger.language_preference "en"),
              m.metrics.distance_meters, m.metrics.walking_time_minutes,
              m.metrics.time_to_departure_minutes, false,
              strTruthy r.passenger.phone && c.isSome,
              (get_helper_email s).isSome && e.isSome, now⟩ :: s.location_alerts
          context := some { (s.context.getD ⟨none, none⟩) with
            location_alert := some ⟨"running_late", now,
              build_alert_message r.passenger.first_name (orDefault seg.flight.gate "your gate")
                m.metrics.walking_time_minutes m.metrics.time_to_departure_minutes
                (orDefault r.passenger.language_preference "en"),
              m.metrics.distance_meters, m.metrics.walking_time_minutes,
              m.metrics.time_to_departure_minutes⟩ } },
        strTruthy r.passenger.phone, (get_helper_email s).isSome⟩ := by
  simp only [send_running_late_alert, hres, hseg, hcool]
  rcases hc : c with _ | cr <;> rcases hph : strTruthy r.passenger.phone <;>
    simp [hc, hph]

/-- Full characterization of an urgent dispatch that proceeds past its
checks with a numeric time-to-departure: the persisted alert (with
`email_sent = false`), no context update, no e-mail attempt, and a result
dict that carries `voice_call_sent` only when the call succeeded and no
`email_sent` key. -/
lemma urgent_proceeds (now : ℚ) (s : Session) (m : LocationMetrics)
    (c : Option CallResult) (force : Bool) (r : Reservation)
    (seg : FlightSegment) (t : ℤ) (hres : s.reservation = some r)
    (hseg : r.flight_segments.head? = some seg)
    (hcool : (!force && hasRecentAlert s "urgent" now 5) = false)
    (httd : m.metrics.time_to_departure_minutes = some t) :
    ∃ msg,
      build_urgent_message r.passenger.first_name (orDefault seg.flight.gate "your gate")
          m.metrics.walking_time_minutes m.metrics.time_to_departure_minutes
          (orDefault r.passenger.language_preference "en") = Except.ok msg ∧
      send_urgent_alert now (some s) m c force =
        Except.ok
          ⟨some ⟨"urgent", msg,
              if strTruthy r.passenger.phone && c.isSome then some true else none,
              none, none⟩,
            some { s with
              location_alerts :=
                ⟨"urgent", msg,
                  m.metrics.distance_meters, m.metrics.walking_time_minutes,
                  m.metrics.time_to_departure_minutes, false,
                  strTruthy r.passenger.phone && c.isSome, false, now⟩ ::
                  s.location_alerts },
            strTruthy r.passenger.phone, false⟩ := by
  refine ⟨(if (orDefault r.passenger.language_preference "en") == "es" then
      "URGENTE: " ++ r.passenger.first_name ++ ", puede perder su vuelo! La puerta " ++
        orDefault seg.flight.gate "your gate" ++ " cierra en " ++ toString (t - 15) ++
        " minutos y usted esta a " ++ strOfOptInt m.metrics.walking_time_minutes ++
        " minutos de distancia. Por favor corra a su puerta inmediatamente!"
    else
      "URGENT: " ++ r.passenger.first_name ++ ", you may miss your flight! Gate " ++
        orDefault seg.flight.gate "your gate" ++ " closes in " ++ toString (t - 15) ++
        " minutes and you are " ++ strOfOptInt m.metrics.walking_time_minutes ++
        " minutes away. Please hurry to your gate immediately!"), ?_, ?_⟩
  · rw [httd]
    rfl
  · simp only [send_urgent_alert, hres, hseg, hcool, httd, build_urgent_message]
    rcases hc : c with _ | cr <;> rcases hph : strTruthy r.passenger.phone <;>
      simp [hc, hph]

/-- Above the arrival threshold, the classification is monotone in the
distance on the severity scale SAFE < WARNING < URGENT. -/
lemma classify_status_mono (ttd : ℤ) {d1 d2 : ℝ} (h100 : 100 < d1) (hle : d1 ≤ d2) :
    severity (classify_status d1 ttd) ≤ severity (classify_status d2 ttd) := by
  have hw : estimate_walking_time d1 "elderly" ≤ estimate_walking_time d2 "elderly" := by
    rw [estimate_walking_time_elderly, estimate_walking_time_elderly]
    exact max_le_max le_rfl (pyRound_mono (by linarith))
  simp only [classify_status, GATE_ARRIVAL_THRESHOLD, WARNING_BUFFER, SAFE_BUFFER]
  have hA : ¬ (d1 ≤ (100 : ℝ)) := by linarith
  have hB : ¬ (d2 ≤ (100 : ℝ)) := by linarith
  rw [if_neg hA, if_neg hB]
  split_ifs <;> simp [severity] <;> omega

/-- An empty session with no reservation and no fixes. -/
def emptySession : Session := ⟨[], [], none, none⟩

/-- C1: for every session where `check_alert_status` reaches the
classification step (session, stored fix, resolvable gate, and flight
segment all present), the returned `alert_status` is decided by the first
matching rule in this order: ARRIVED iff distance-to-gate ≤ 100 m;
otherwise URGENT iff walking-time > time-to-departure − 15; otherwise
WARNING iff walking-time > time-to-departure − 30; otherwise SAFE. -/
theorem claim_C1 (now : ℚ) (s : Session) (fix : LocationFix) (gl : SessionGateLocation)
    (r : Reservation) (seg : FlightSegment)
    (hfix : get_current_location s = some fix)
    (hgl : get_gate_location_for_session s = some gl)
    (hres : s.reservation = some r)
    (hseg : r.flight_segments.head? = some seg) :
    ((check_alert_status now (some s)).alert_status = "arrived" ↔
      calculate_distance fix.latitude fix.longitude gl.lat gl.lng ≤ 100) ∧
    ((check_alert_status now (some s)).alert_status = "urgent" ↔
      ¬ calculate_distance fix.latitude fix.longitude gl.lat gl.lng ≤ 100 ∧
      estimate_walking_time (calculate_distance fix.latitude fix.longitude gl.lat gl.lng)
          "elderly" > max 0 (truncQ (seg.flight.departure_time - now)) - 15) ∧
    ((check_alert_status now (some s)).alert_status = "warning" ↔
      ¬ calculate_distance fix.latitude fix.longitude gl.lat gl.lng ≤ 100 ∧
      ¬ estimate_walking_time (calculate_distance fix.latitude fix.longitude gl.lat gl.lng)
          "elderly" > max 0 (truncQ (seg.flight.departure_time - now)) - 15 ∧
      estimate_walking_time (calculate_distance fix.latitude fix.longitude gl.lat gl.lng)
          "elderly" > max 0 (truncQ (seg.flight.departure_time - now)) - 30) ∧
    ((check_alert_status now (some s)).alert_status = "safe" ↔
      ¬ calculate_distance fix.latitude fix.longitude gl.lat gl.lng ≤ 100 ∧
      ¬ estimate_walking_time (calculate_distance fix.latitude fix.longitude gl.lat gl.lng)
          "elderly" > max 0 (truncQ (seg.flight.departure_time - now)) - 15 ∧
      ¬ estimate_walking_time (calculate_distance fix.latitude fix.longitude gl.lat gl.lng)
          "elderly" > max 0 (truncQ (seg.flight.departure_time - now)) - 30) := by
  have hb := (check_alert_status_fields now s fix gl r seg hfix hgl hres hseg).1
  rw [hb]
  simp only [classify_status, GATE_ARRIVAL_THRESHOLD, WARNING_BUFFER, SAFE_BUFFER]
  split_ifs with h1 h2 h3 <;> simp_all [AlertStatus.value]

/-- Witness for C1 at the arrived scenario. -/
theorem claim_C1_witness :
    (check_alert_status 0 (some arrivedSession)).alert_status = "arrived" ↔
      calculate_distance 32.8986 (-97.0363) 32.8986 (-97.0363) ≤ 100 :=
  (claim_C1 0 arrivedSession ⟨32.8986, (-97.0363), none, 0⟩
    ⟨32.8986, (-97.0363), "B22", "B", false⟩ ⟨c5Passenger, [⟨arrivedFlight, none⟩]⟩
    ⟨arrivedFlight, none⟩ rfl rfl rfl rfl).1

/-- C4 (amended): `update_location` persists and returns a new fix exactly
when it is the first-ever fix or the distance from the most recent stored
fix is at least 50 m (the code suppresses only strictly smaller
movements); otherwise it returns `None` and writes nothing. -/
theorem claim_C4 (now : ℚ) (s : Session) (lat lng : ℝ) (acc : Option ℝ) :
    (s.locations.head? = none →
      update_location now (some s) lat lng acc =
        (some ⟨lat, lng, acc, now⟩,
         some { s with locations := ⟨lat, lng, acc, now⟩ :: s.locations })) ∧
    (∀ l, s.locations.head? = some l →
      50 ≤ calculate_distance l.latitude l.longitude lat lng →
      update_location now (some s) lat lng acc =
        (some ⟨lat, lng, acc, now⟩,
         some { s with locations := ⟨lat, lng, acc, now⟩ :: s.locations })) ∧
    (∀ l, s.locations.head? = some l →
      calculate_distance l.latitude l.longitude lat lng < 50 →
      update_location now (some s) lat lng acc = (none, some s)) := by
  refine ⟨?_, ?_, ?_⟩
  · intro h
    simp [update_location, h]
  · intro l hl hd
    simp only [update_location, hl]
    rw [if_pos]
    rw [not_lt]
    simpa only [MIN_MOVEMENT_THRESHOLD] using hd
  · intro l hl hd
    simp only [update_location, hl]
    rw [if_neg]
    rw [not_not]
    simpa only [MIN_MOVEMENT_THRESHOLD] using hd

/-- Witness for C4: the first-ever fix of a fresh session is stored. -/
theorem claim_C4_witness :
    update_location 0 (some emptySession) 1 2 none =
      (some ⟨1, 2, none, 0⟩,
       some { emptySession with locations := [⟨1, 2, none, 0⟩] }) :=
  (claim_C4 0 emptySession 1 2 none).1 rfl

/-- Counterexample to C4 as stated: at a distance of exactly 50 m (which
the claim says must NOT be stored, since 50 does not strictly exceed 50)
the code DOES store a new fix. -/
theorem claim_C4_counterexample :
    calculate_distance 0 0 lat50 0 = 50 ∧
    ¬ ((50 : ℝ) > 50) ∧
    s50.locations.head? ≠ none ∧
    (update_location 0 (some s50) lat50 0 none).1 ≠ none := by
  refine ⟨dist_meridian_50, by norm_num, by simp [s50], ?_⟩
  rw [update_location_s50]
  simp

/-- C5 (amended): in the B22 scenario (fix 32.8958, -97.0385, gate B22 at
DFW, departure in 20 minutes) the status is URGENT with
timeToDepartureMinutes 20, but walkingTimeMinutes is 7, not 8 (the
distance is about 373 m, not 380 m). -/
theorem claim_C5 :
    (check_alert_status 0 (some c5Session)).alert_status = "urgent" ∧
    (check_alert_status 0 (some c5Session)).time_to_departure_minutes = some 20 ∧
    (check_alert_status 0 (some c5Session)).walking_time_minutes = some 7 ∧
    (check_alert_status 0 (some c5Session)).distance_meters = some 373 :=
  ⟨c5_status_eval.1, c5_status_eval.2.2.2, c5_status_eval.2.2.1, c5_status_eval.2.1⟩

/-- Counterexample to C5 as stated: the walking time reported in the B22
scenario is not 8 minutes. -/
theorem claim_C5_counterexample :
    (check_alert_status 0 (some c5Session)).walking_time_minutes ≠ some 8 := by
  rw [c5_status_eval.2.2.1]
  decide

/-- C6 (amended): the location-update view stores the fix first and then
invokes `check_and_send_alerts` ONLY when the fix was stored (not on every
push); the response reports the current metrics and whether an alert
fired. -/
theorem claim_C6 (now : ℚ) (session? : Option Session) (lat lng : ℝ) (acc : Option ℝ)
    (c : Option CallResult) (e : Option Unit) :
    (update_location_view now session? lat lng acc c e).2.2 =
      (update_location now session? lat lng acc).1.isSome ∧
    (update_location_view now session? lat lng acc c e).1.stored =
      (update_location now session? lat lng acc).1.isSome ∧
    (update_location_view now session? lat lng acc c e).1.alert_triggered =
      ((update_location now session? lat lng acc).1.isSome &&
        (check_and_send_alerts now (update_location now session? lat lng acc).2 c
          e).result.isSome) ∧
    (update_location_view now session? lat lng acc c e).1.metrics =
      (get_location_metrics now
        (update_location_view now session? lat lng acc c e).2.1).metrics := by
  rcases h : (update_location now session? lat lng acc).1 with _ | fix <;>
    simp [update_location_view, h]

/-- Counterexample to C6 as stated: a push whose fix is deemed
insignificant (same point as the stored fix) does NOT invoke
`check_and_send_alerts`. -/
theorem claim_C6_counterexample :
    (update_location_view 0 (some s50) 0 0 none none none).2.2 = false ∧
    (update_location_view 0 (some s50) 0 0 none none none).1.stored = false := by
  constructor <;> simp [update_location_view, update_location_same_point]

/-- C7: holding gate and departure fixed, the classification used by
`check_alert_status` is monotone in the distance on the scale
SAFE < WARNING < URGENT above the 100 m threshold, and any distance
≤ 100 m is ARRIVED regardless of time-to-departure. -/
theorem claim_C7 :
    (∀ (ttd : ℤ) (d1 d2 : ℝ), 100 < d1 → d1 ≤ d2 →
      severity (classify_status d1 ttd) ≤ severity (classify_status d2 ttd)) ∧
    (∀ (ttd : ℤ) (d : ℝ), d ≤ 100 → classify_status d ttd = AlertStatus.arrived) ∧
    (∀ (now : ℚ) (s : Session) (fix : LocationFix) (gl : SessionGateLocation)
        (r : Reservation) (seg : FlightSegment),
      get_current_location s = some fix →
      get_gate_location_for_session s = some gl →
      s.reservation = some r →
      r.flight_segments.head? = some seg →
      (check_alert_status now (some s)).alert_status =
        (classify_status (calculate_distance fix.latitude fix.longitude gl.lat gl.lng)
          (max 0 (truncQ (seg.flight.departure_time - now)))).value) := by
  refine ⟨fun ttd d1 d2 h100 hle => classify_status_mono ttd h100 hle, ?_, ?_⟩
  · intro ttd d h
    simp only [classify_status, GATE_ARRIVAL_THRESHOLD]
    rw [if_pos h]
  · intro now s fix gl r seg hfix hgl hres hseg
    exact (check_alert_status_fields now s fix gl r seg hfix hgl hres hseg).1

/-- Witness for C7: distances 200 m and 20000 m (60 minutes to departure),
and arrival at distance 0. -/
theorem claim_C7_witness :
    ((100 : ℝ) < 200 ∧ (200 : ℝ) ≤ 20000 ∧
      severity (classify_status 200 60) ≤ severity (classify_status 20000 60)) ∧
    ((0 : ℝ) ≤ 100 ∧ classify_status 0 60 = AlertStatus.arrived) :=
  ⟨⟨by norm_num, by norm_num, claim_C7.1 60 200 20000 (by norm_num) (by norm_num)⟩,
   ⟨by norm_num, claim_C7.2.1 60 0 (by norm_num)⟩⟩

/-- C8: `estimate_walking_time` divides the distance by the selected pace
speed (normal 80, elderly 50, rushed 100 m/min), rounds to the nearest
integer, and floors the result at one minute; for any positive distance
the result is at least 1. -/
theorem claim_C8 :
    (∀ d : ℝ, estimate_walking_time d "normal" = max 1 (pyRound (d / 80))) ∧
    (∀ d : ℝ, estimate_walking_time d "elderly" = max 1 (pyRound (d / 50))) ∧
    (∀ d : ℝ, estimate_walking_time d "rushed" = max 1 (pyRound (d / 100))) ∧
    (∀ (d : ℝ) (pace : String), 0 < d → 1 ≤ estimate_walking_time d pace) ∧
    (∀ x : ℝ, |(pyRound x : ℝ) - x| ≤ 1 / 2) := by
  refine ⟨fun d => rfl, fun d => rfl, fun d => rfl, ?_, abs_pyRound_sub_le⟩
  intro d pace _
  exact le_max_left 1 _

/-- Witness for C8 at distance 100 m on the elderly pace. -/
theorem claim_C8_witness :
    (0 : ℝ) < 100 ∧ 1 ≤ estimate_walking_time 100 "elderly" :=
  ⟨by norm_num, claim_C8.2.2.2.1 100 "elderly" (by norm_num)⟩

/-- C9: every precondition-failure path of `check_alert_status` (unknown
session, no stored fix, unresolvable gate, missing reservation or flight
segment) returns the initial default `alert_status = 'safe'`, with all
three numeric metrics null. -/
theorem claim_C9 (now : ℚ) (session? : Option Session)
    (h : session? = none ∨ ∃ s, session? = some s ∧
      (get_current_location s = none ∨ get_gate_location_for_session s = none ∨
        s.reservation = none ∨
        ∃ r, s.reservation = some r ∧ r.flight_segments.head? = none)) :
    (check_alert_status now session?).alert_status = AlertStatus.safe.value ∧
    (check_alert_status now session?).distance_meters = none ∧
    (check_alert_status now session?).walking_time_minutes = none ∧
    (check_alert_status now session?).time_to_departure_minutes = none := by
  have hout : ∃ msg, check_alert_status now session? = alertResultBase msg := by
    rcases h with rfl | ⟨s, rfl, h⟩
    · exact ⟨_, rfl⟩
    rcases h with h | h | h | ⟨r, hr, hsg⟩
    · exact ⟨"No location data available", by simp [check_alert_status, h]⟩
    · rcases hcur : get_current_location s with _ | fix
      · exact ⟨"No location data available", by simp [check_alert_status, hcur]⟩
      · exact ⟨"Gate information not available", by simp [check_alert_status, hcur, h]⟩
    · have hgl : get_gate_location_for_session s = none := by
        simp [get_gate_location_for_session, h]
      rcases hcur : get_current_location s with _ | fix
      · exact ⟨"No location data available", by simp [check_alert_status, hcur]⟩
      · exact ⟨"Gate information not available", by simp [check_alert_status, hcur, hgl]⟩
    · have hgl : get_gate_location_for_session s = none := by
        simp [get_gate_location_for_session, hr, hsg]
      rcases hcur : get_current_location s with _ | fix
      · exact ⟨"No location data available", by simp [check_alert_status, hcur]⟩
      · exact ⟨"Gate information not available", by simp [check_alert_status, hcur, hgl]⟩
  obtain ⟨msg, hmsg⟩ := hout
  rw [hmsg]
  exact ⟨rfl, rfl, rfl, rfl⟩

/-- Witness for C9 at an unknown session. -/
theorem claim_C9_witness :
    (check_alert_status 0 none).alert_status = AlertStatus.safe.value ∧
    (check_alert_status 0 none).distance_meters = none ∧
    (check_alert_status 0 none).walking_time_minutes = none ∧
    (check_alert_status 0 none).time_to_departure_minutes = none :=
  claim_C9 0 none (Or.inl rfl)

/-- C10: `estimate_walking_time` is total in the pace argument; any pace
outside normal/elderly/rushed silently falls back to the elderly speed. -/
theorem claim_C10 (d : ℝ) (pace : String) (h1 : pace ≠ "normal")
    (h2 : pace ≠ "elderly") (h3 : pace ≠ "rushed") :
    estimate_walking_time d pace = estimate_walking_time d "elderly" := by
  have e1 : (pace == "normal") = false := by simp [h1]
  have e2 : (pace == "elderly") = false := by simp [h2]
  have e3 : (pace == "rushed") = false := by simp [h3]
  simp [estimate_walking_time, WALKING_SPEEDS, List.lookup, e1, e2, e3]

/-- Witness for C10 at the unknown pace string `brisk`. -/
theorem claim_C10_witness :
    ("brisk" ≠ "normal" ∧ "brisk" ≠ "elderly" ∧ "brisk" ≠ "rushed") ∧
    estimate_walking_time 100 "brisk" = estimate_walking_time 100 "elderly" :=
  ⟨⟨by decide, by decide, by decide⟩,
   claim_C10 100 "brisk" (by decide) (by decide) (by decide)⟩

/-- A session with a reservation and segment but no alerts yet. -/
def wSession : Session := ⟨[], [], some ⟨c5Passenger, [⟨c5Flight, none⟩]⟩, none⟩

/-- A metrics value with no numeric data, as produced on a precondition
failure. -/
def w0Metrics : LocationMetrics := ⟨none, none, ⟨none, none, none, "safe"⟩, "", "", none⟩

/-- A session holding one running-late alert created at time 0. -/
def w2Session : Session :=
  ⟨[], [⟨"running_late", "m", none, none, none, false, false, false, 0⟩],
    some ⟨c5Passenger, [⟨c5Flight, none⟩]⟩, none⟩

/-- A session holding one urgent alert created at time 0. -/
def w2USession : Session :=
  ⟨[], [⟨"urgent", "m", none, none, none, false, false, false, 0⟩],
    some ⟨c5Passenger, [⟨c5Flight, none⟩]⟩, none⟩

/-- C2: with `force = false` each dispatcher returns `None` and performs no
writes whenever an alert of the same type exists inside its cooldown
window (10 minutes for running-late, 5 for urgent); with `force = true`
the cooldown is bypassed — so two running-late calls within 10 minutes
persist exactly one `LocationAlert`, and with `force = true` on the second
call they persist two. -/
theorem claim_C2 :
    (∀ (now : ℚ) (s : Session) (m : LocationMetrics) (c : Option CallResult) (e : Option Unit),
      hasRecentAlert s "running_late" now 10 = true →
      send_running_late_alert now (some s) m c e false = ⟨none, some s, false, false⟩) ∧
    (∀ (now : ℚ) (s : Session) (m : LocationMetrics) (c : Option CallResult),
      hasRecentAlert s "urgent" now 5 = true →
      send_urgent_alert now (some s) m c false = Except.ok ⟨none, some s, false, false⟩) ∧
    (∀ (now₁ now₂ : ℚ) (s : Session) (m₁ m₂ : LocationMetrics) (c₁ c₂ : Option CallResult)
        (e₁ e₂ : Option Unit) (r : Reservation) (seg : FlightSegment),
      s.reservation = some r → r.flight_segments.head? = some seg →
      countType s "running_late" = 0 → now₁ ≤ now₂ → now₂ - now₁ ≤ 10 →
      countTypeO (send_running_late_alert now₁ (some s) m₁ c₁ e₁ false).db "running_late" = 1 ∧
      send_running_late_alert now₂ (send_running_late_alert now₁ (some s) m₁ c₁ e₁ false).db
          m₂ c₂ e₂ false =
        ⟨none, (send_running_late_alert now₁ (some s) m₁ c₁ e₁ false).db, false, false⟩ ∧
      countTypeO (send_running_late_alert now₂
          (send_running_late_alert now₁ (some s) m₁ c₁ e₁ false).db m₂ c₂ e₂ true).db
          "running_late" = 2) := by
  refine ⟨fun now s m c e h => running_late_suppressed now s m c e h,
    fun now s m c h => urgent_suppressed now s m c h, ?_⟩
  intro now₁ now₂ s m₁ m₂ c₁ c₂ e₁ e₂ r seg hres hseg hcount h12 hwin
  have hfilter : s.location_alerts.filter (fun al => al.alert_type == "running_late") = [] :=
    List.length_eq_zero.mp hcount
  have hnone : ∀ al ∈ s.location_alerts, (al.alert_type == "running_late") = false := by
    intro al hal
    by_contra hne
    have hmem : al ∈ s.location_alerts.filter (fun al => al.alert_type == "running_late") :=
      List.mem_filter.mpr ⟨hal, by simpa using hne⟩
    simp [hfilter] at hmem
  have hcool1 : hasRecentAlert s "running_late" now₁ ALERT_COOLDOWN = false := by
    rw [hasRecentAlert, List.any_eq_false]
    intro al hal
    simp [hnone al hal]
  have hE1 := running_late_proceeds now₁ s m₁ c₁ e₁ false r seg hres hseg (by simp [hcool1])
  refine ⟨?_, ?_, ?_⟩
  · rw [hE1]
    simp [countTypeO, countType, List.filter_cons, hfilter]
  · rw [hE1]
    apply running_late_suppressed
    rw [hasRecentAlert]
    simp only [List.any_cons, Bool.or_eq_true, List.any_eq_true]
    left
    simp only [beq_self_eq_true, Bool.true_and, decide_eq_true_eq, ALERT_COOLDOWN]
    linarith
  · rw [hE1]
    have hE2 := running_late_proceeds now₂
      { s with
        location_alerts :=
          ⟨"running_late",
            build_alert_message r.passenger.first_name (orDefault seg.flight.gate "your gate")
              m₁.metrics.walking_time_minutes m₁.metrics.time_to_departure_minutes
              (orDefault r.passenger.language_preference "en"),
            m₁.metrics.distance_meters, m₁.metrics.walking_time_minutes,
            m₁.metrics.time_to_departure_minutes, false,
            strTruthy r.passenger.phone && c₁.isSome,
            (get_helper_email s).isSome && e₁.isSome, now₁⟩ :: s.location_alerts
        context := some { (s.context.getD ⟨none, none⟩) with
          location_alert := some ⟨"running_late", now₁,
            build_alert_message r.passenger.first_name (orDefault seg.flight.gate "your gate")
              m₁.metrics.walking_time_minutes m₁.metrics.time_to_departure_minutes
              (orDefault r.passenger.language_preference "en"),
            m₁.metrics.distance_meters, m₁.metrics.walking_time_minutes,
            m₁.metrics.time_to_departure_minutes⟩ } }
      m₂ c₂ e₂ true r seg (by simpa using hres) (by simpa using hseg) (by simp)
    rw [hE2]
    simp [countTypeO, countType, List.filter_cons, hfilter]

/-- Witness for C2: suppression with a recent alert of each type, and the
two-call scenario from a fresh session. -/
theorem claim_C2_witness :
    (hasRecentAlert w2Session "running_late" 5 10 = true ∧
      send_running_late_alert 5 (some w2Session) w0Metrics none none false =
        ⟨none, some w2Session, false, false⟩) ∧
    (hasRecentAlert w2USession "urgent" 3 5 = true ∧
      send_urgent_alert 3 (some w2USession) w0Metrics none false =
        Except.ok ⟨none, some w2USession, false, false⟩) ∧
    (countTypeO (send_running_late_alert 0 (some wSession) w0Metrics none none false).db
        "running_late" = 1 ∧
      send_running_late_alert 5
          (send_running_late_alert 0 (some wSession) w0Metrics none none false).db
          w0Metrics none none false =
        ⟨none, (send_running_late_alert 0 (some wSession) w0Metrics none none false).db,
          false, false⟩ ∧
      countTypeO (send_running_late_alert 5
          (send_running_late_alert 0 (some wSession) w0Metrics none none false).db
          w0Metrics none none true).db "running_late" = 2) :=
  ⟨⟨by simp [hasRecentAlert, w2Session]; norm_num,
      claim_C2.1 5 w2Session w0Metrics none none
        (by simp [hasRecentAlert, w2Session]; norm_num)⟩,
    ⟨by simp [hasRecentAlert, w2USession]; norm_num,
      claim_C2.2.1 3 w2USession w0Metrics none
        (by simp [hasRecentAlert, w2USession]; norm_num)⟩,
    claim_C2.2.2 0 5 wSession w0Metrics w0Metrics none none none none
      ⟨c5Passenger, [⟨c5Flight, none⟩]⟩ ⟨c5Flight, none⟩ rfl rfl (by decide)
      (by norm_num) (by norm_num)⟩

/-- C3 (amended): when `send_running_late_alert` proceeds past its checks,
the voice and e-mail channels are independent and both reported: the
result carries `voice_call_sent` and `email_sent` keys whose values
reflect each channel outcome, the e-mail attempt does not depend on the
call outcome, and the `LocationAlert` row is persisted with the same
flags. `send_urgent_alert`, however, attempts no e-mail at all: whenever
it proceeds with a numeric time-to-departure its result never carries an
`email_sent` key and carries `voice_call_sent` only when the call
succeeded (the row is still persisted); and on a `None` time-to-departure
it raises `TypeError` in `_build_urgent_message` — before persisting any
row or returning any dict — instead of reporting anything at all. -/
theorem claim_C3 :
    (∀ (now : ℚ) (s : Session) (m : LocationMetrics) (c : Option CallResult) (e : Option Unit)
        (force : Bool) (r : Reservation) (seg : FlightSegment),
      s.reservation = some r → r.flight_segments.head? = some seg →
      (!force && hasRecentAlert s "running_late" now 10) = false →
      (send_running_late_alert now (some s) m c e force).result.map
          (fun res => res.voice_call_sent) =
        some (some (strTruthy r.passenger.phone && c.isSome)) ∧
      (send_running_late_alert now (some s) m c e force).result.map
          (fun res => res.email_sent) =
        some (some ((get_helper_email s).isSome && e.isSome)) ∧
      (send_running_late_alert now (some s) m c e force).email_attempted =
        (get_helper_email s).isSome ∧
      ((send_running_late_alert now (some s) m c e force).db.map
          (fun s2 => s2.location_alerts.length)) = some (s.location_alerts.length + 1) ∧
      ((send_running_late_alert now (some s) m c e force).db.bind
          (fun s2 => s2.location_alerts.head?)).map
          (fun al => (al.voice_call_sent, al.email_sent)) =
        some (strTruthy r.passenger.phone && c.isSome,
          (get_helper_email s).isSome && e.isSome)) ∧
    (∀ (now : ℚ) (s : Session) (m : LocationMetrics) (c : Option CallResult)
        (force : Bool) (r : Reservation) (seg : FlightSegment) (t : ℤ),
      s.reservation = some r → r.flight_segments.head? = some seg →
      (!force && hasRecentAlert s "urgent" now 5) = false →
      m.metrics.time_to_departure_minutes = some t →
      ((send_urgent_alert now (some s) m c force).toOption.bind
          (fun E => E.result)).map (fun res => res.email_sent) = some none ∧
      ((send_urgent_alert now (some s) m c force).toOption.map
          (fun E => E.email_attempted)) = some false ∧
      ((send_urgent_alert now (some s) m c force).toOption.bind
          (fun E => E.result)).map (fun res => res.voice_call_sent) =
        some (if strTruthy r.passenger.phone && c.isSome then some true else none) ∧
      (((send_urgent_alert now (some s) m c force).toOption.bind
          (fun E => E.db)).map
          (fun s2 => s2.location_alerts.length)) = some (s.location_alerts.length + 1) ∧
      (((send_urgent_alert now (some s) m c force).toOption.bind
          (fun E => E.db)).bind (fun s2 => s2.location_alerts.head?)).map
          (fun al => (al.voice_call_sent, al.email_sent)) =
        some (strTruthy r.passenger.phone && c.isSome, false)) ∧
    (∀ (now : ℚ) (s : Session) (m : LocationMetrics) (c : Option CallResult)
        (force : Bool) (r : Reservation) (seg : FlightSegment),
      s.reservation = some r → r.flight_segments.head? = some seg →
      (!force && hasRecentAlert s "urgent" now 5) = false →
      m.metrics.time_to_departure_minutes = none →
      send_urgent_alert now (some s) m c force = Except.error ()) := by
  refine ⟨?_, ?_, ?_⟩
  · intro now s m c e force r seg hres hseg hcool
    rw [running_late_proceeds now s m c e force r seg hres hseg hcool]
    simp
  · intro now s m c force r seg t hres hseg hcool httd
    obtain ⟨msg, hmsg, hE⟩ := urgent_proceeds now s m c force r seg t hres hseg hcool httd
    rw [hE]
    simp [Except.toOption]
  · intro now s m c force r seg hres hseg hcool httd
    simp [send_urgent_alert, hres, hseg, hcool, httd, build_urgent_message]

/-- The metrics the service computes for the B22 scenario (`c5Session` at
`now = 0`): 373 m from the gate, a 7-minute walk, 20 minutes to
departure, URGENT status. Only the `metrics` sub-dict is read by the
urgent dispatcher. -/
def d3Metrics : LocationMetrics := ⟨none, none, ⟨some 373, some 7, some 20, "urgent"⟩, "", "", none⟩

/-- Counterexample to C3 as stated: an urgent dispatch with fully numeric
metrics (the B22 scenario) proceeds — it builds its message from the
20-minute time-to-departure, persists the row and returns a dict — yet
that dict has NO `email_sent` key. -/
theorem claim_C3_counterexample :
    ((send_urgent_alert 0 (some c5Session) d3Metrics (some ⟨some "call-1"⟩) false).toOption.map
        (fun E => E.result.isSome)) = some true ∧
    (((send_urgent_alert 0 (some c5Session) d3Metrics (some ⟨some "call-1"⟩) false).toOption.bind
        (fun E => E.result)).map (fun res => res.email_sent)) = some none := by
  constructor <;> rfl

/-- Witness for C3: the running-late half at a fresh session, the urgent
half at the numeric B22 metrics, and the raise on null metrics. -/
theorem claim_C3_witness :
    ((send_running_late_alert 0 (some wSession) w0Metrics (some ⟨some "id-1"⟩) (some ())
          false).result.map (fun res => res.voice_call_sent) = some (some false) ∧
      (send_running_late_alert 0 (some wSession) w0Metrics (some ⟨some "id-1"⟩) (some ())
          false).email_attempted = false) ∧
    (((send_urgent_alert 0 (some c5Session) d3Metrics (some ⟨some "id-1"⟩)
          false).toOption.bind (fun E => E.result)).map (fun res => res.email_sent) =
        some none ∧
      ((send_urgent_alert 0 (some c5Session) d3Metrics (some ⟨some "id-1"⟩)
          false).toOption.map (fun E => E.email_attempted)) = some false) ∧
    send_urgent_alert 0 (some wSession) w0Metrics (some ⟨some "id-1"⟩) false =
      Except.error () := by
  have h1 := claim_C3.1 0 wSession w0Metrics (some ⟨some "id-1"⟩) (some ()) false
    ⟨c5Passenger, [⟨c5Flight, none⟩]⟩ ⟨c5Flight, none⟩ rfl rfl (by decide)
  have h2 := claim_C3.2.1 0 c5Session d3Metrics (some ⟨some "id-1"⟩) false
    c5Reservation ⟨c5Flight, none⟩ 20 rfl rfl (by decide) rfl
  have h3 := claim_C3.2.2 0 wSession w0Metrics (some ⟨some "id-1"⟩) false
    ⟨c5Passenger, [⟨c5Flight, none⟩]⟩ ⟨c5Flight, none⟩ rfl rfl (by decide) rfl
  exact ⟨⟨h1.1, h1.2.2.1⟩, ⟨h2.1, h2.2.1⟩, h3⟩

end ElderStrolls
